import Mathlib

/-!
Verification of the hyperswitch connector-integration layer (ACI, Fiserv,
Nexinets, Noon and Globalpay transformers) against its specification.

The definitions below are a shallow embedding of the Rust source in
`crates/hyperswitch_connectors/src/connectors/{aci,fiserv,nexinets,noon}/transformers.rs`
and `crates/router/src/connector/globalpay/transformers.rs`.
Rust `Secret<T>` wrappers are erased to their payload type, `Result<T, E>`
becomes `Except E T`, `Option<T>` becomes `Option T`, and connector wire
strings stay `String`.  External library calls (serde_json parsing, URL
parsing) are passed in as explicit function arguments, since their code is
not part of this repository.
-/

set_option maxHeartbeats 1000000

/-- HTTP method of a redirect form (common_utils::request::Method, the two
constructors used by these connectors). -/
inductive Method where
  | get
  | post
  deriving Repr, DecidableEq

/-- common_enums::CaptureMethod. -/
inductive CaptureMethod where
  | automatic
  | manual
  | manualMultiple
  | scheduled
  | sequentialAutomatic
  deriving Repr, DecidableEq

/-- common_enums::AttemptStatus (the canonical attempt-status vocabulary;
the constructors reachable from the embedded connectors). -/
inductive AttemptStatus where
  | started
  | authenticationFailed
  | authenticationPending
  | authenticationSuccessful
  | authorized
  | authorizationFailed
  | authorizing
  | charged
  | captureFailed
  | voided
  | voidFailed
  | pending
  | failure
  deriving Repr, DecidableEq

/-- common_enums::RefundStatus (canonical refund statuses used by these
connectors). -/
inductive RefundStatus where
  | success
  | failure
  | pending
  deriving Repr, DecidableEq

/-- hyperswitch_interfaces::errors::ConnectorError, restricted to the
constructors reachable from the embedded transformers. -/
inductive ConnectorError where
  | notImplemented (message : String)
  | missingRequiredField (field_name : String)
  | failedToObtainAuthType
  | invalidConnectorConfig (config : String)
  | responseHandlingFailed
  | requestEncodingFailed
  | unexpectedResponseError (raw : String)
  | flowNotSupported (flow : String) (connector : String)
  | missingConnectorTransactionID
  | missingConnectorRelatedTransactionID (id : String)
  | failedToObtainIntegrationUrl
  | invalidWalletToken (wallet_name : String)
  deriving Repr, DecidableEq

/-- hyperswitch_domain_models::router_data::ConnectorAuthType (credential
shapes used by the embedded connectors). -/
inductive ConnectorAuthType where
  | headerKey (api_key : String)
  | bodyKey (api_key : String) (key1 : String)
  | signatureKey (api_key : String) (key1 : String) (api_secret : String)
  | multiAuthKey (api_key : String) (key1 : String) (api_secret : String) (key2 : String)
  deriving Repr, DecidableEq

/-- api_models::enums::CountryAlpha2 (a sample of ISO country codes; the
transformers only move these values around). -/
inductive Country where
  | us | de | nl | pl | ca | ae | gb
  deriving Repr, DecidableEq

/-- common_enums::Currency (a sample; used for display and exponent lookup). -/
inductive Currency where
  | usd | eur | jpy | kwd | aed | gbp
  deriving Repr, DecidableEq

/-- Wire rendering of the currency, as produced by `currency.to_string()`. -/
def Currency.toText : Currency → String
  | .usd => "USD"
  | .eur => "EUR"
  | .jpy => "JPY"
  | .kwd => "KWD"
  | .aed => "AED"
  | .gbp => "GBP"

/-- common_enums::BankNames: the banks the Nexinets/ACI bank-redirect flows
inspect.  The first ten are the Nexinets-supported iDEAL banks; the last two
stand for the many other `BankNames` constructors, which Nexinets rejects. -/
inductive BankNames where
  | abnAmro | asnBank | bunq | ing | knab | rabobank | regiobank | snsBank
  | triodosBank | vanLanschot
  | hsbc | barclays
  deriving Repr, DecidableEq

/-- `bank.to_string()` for error messages. -/
def BankNames.toText : BankNames → String
  | .abnAmro => "AbnAmro"
  | .asnBank => "AsnBank"
  | .bunq => "Bunq"
  | .ing => "Ing"
  | .knab => "Knab"
  | .rabobank => "Rabobank"
  | .regiobank => "Regiobank"
  | .snsBank => "SnsBank"
  | .triodosBank => "TriodosBank"
  | .vanLanschot => "VanLanschot"
  | .hsbc => "Hsbc"
  | .barclays => "Barclays"

/-! ## Canonical payment-method data union
(hyperswitch_domain_models::payment_method_data).  The wallet and
bank-redirect constructor lists are exactly the variants named in the
exhaustive matches of the four connector transformers. -/

/-- payment_method_data::Card (the fields read by the builders). -/
structure Card where
  card_number : String
  card_exp_month : String
  card_exp_year : String
  card_cvc : String
  deriving Repr, DecidableEq

/-- GooglePay wallet data: the builders only read `tokenization_data.token`. -/
structure GooglePayWalletData where
  token : String
  deriving Repr, DecidableEq

/-- ApplePay payment-method descriptor inside the wallet data. -/
structure ApplePayPaymentMethod where
  display_name : String
  network : String
  pm_type : String
  deriving Repr, DecidableEq

/-- ApplePay wallet data as read by the Noon/Nexinets builders. -/
structure ApplePayWalletData where
  payment_data : String
  payment_method : ApplePayPaymentMethod
  transaction_identifier : String
  deriving Repr, DecidableEq

/-- payment_method_data::WalletData. -/
inductive WalletData where
  | aliPayQr
  | aliPayRedirect
  | aliPayHkRedirect
  | amazonPayRedirect
  | paysera
  | skrill
  | bluecodeRedirect
  | momoRedirect
  | kakaoPayRedirect
  | goPayRedirect
  | gcashRedirect
  | applePay (data : ApplePayWalletData)
  | applePayRedirect
  | applePayThirdPartySdk
  | danaRedirect
  | googlePay (data : GooglePayWalletData)
  | googlePayRedirect
  | googlePayThirdPartySdk
  | mbWayRedirect
  | mobilePayRedirect
  | paypalRedirect
  | paypalSdk
  | paze
  | samsungPay
  | twintRedirect
  | vippsRedirect
  | touchNGoRedirect
  | weChatPayRedirect
  | weChatPayQr
  | cashappQr
  | swishQr
  | mifinity
  | revolutPay
  deriving Repr, DecidableEq

/-- payment_method_data::BankRedirectData. -/
inductive BankRedirectData where
  | bancontactCard
  | bizum
  | blik
  | eps
  | eft
  | giropay (bank_account_bic : Option String) (bank_account_iban : Option String)
  | ideal (bank_name : Option BankNames)
  | interac
  | onlineBankingCzechRepublic
  | onlineBankingFinland
  | onlineBankingFpx
  | onlineBankingPoland
  | onlineBankingSlovakia
  | onlineBankingThailand
  | openBankingUk
  | przelewy24
  | sofort
  | trustly
  | localBankRedirect
  deriving Repr, DecidableEq

/-- payment_method_data::PayLaterData (payload unread by these connectors). -/
inductive PayLaterData where
  | klarnaRedirect
  | klarnaSdk
  | affirmRedirect
  | afterpayClearpayRedirect
  deriving Repr, DecidableEq

/-- payment_method_data::PaymentMethodData, the closed payment-method union. -/
inductive PaymentMethodData where
  | card (data : Card)
  | cardRedirect
  | wallet (data : WalletData)
  | payLater (data : PayLaterData)
  | bankRedirect (data : BankRedirectData)
  | bankDebit
  | bankTransfer
  | crypto
  | mandatePayment
  | reward
  | realTimePayment
  | upi
  | voucher
  | giftCard
  | openBanking
  | cardToken
  | networkToken
  | mobilePayment
  | cardDetailsForNetworkTransactionId
  deriving Repr, DecidableEq

/-- common_enums::PaymentMethod (only `Card` is distinguished by Nexinets). -/
inductive PaymentMethod where
  | card
  | wallet
  | bankRedirect
  | payLater
  | other
  deriving Repr, DecidableEq

/-! ## Mandate identifiers (api_models::payments::MandateIds). -/

/-- Connector-side mandate id container. -/
structure ConnectorMandateReferenceId where
  connector_mandate_id : Option String
  deriving Repr, DecidableEq

/-- api_models::payments::MandateReferenceId. -/
inductive MandateReferenceId where
  | connectorMandateId (ids : ConnectorMandateReferenceId)
  | networkMandateId (id : String)
  deriving Repr, DecidableEq

/-- api_models::payments::MandateIds. -/
structure MandateIds where
  mandate_reference_id : Option MandateReferenceId
  deriving Repr, DecidableEq

/-- `connector_mandate_ids.get_connector_mandate_id()`. -/
def ConnectorMandateReferenceId.get_connector_mandate_id
    (ids : ConnectorMandateReferenceId) : Option String :=
  ids.connector_mandate_id

/-! ## Shared response-side data model. -/

/-- router_request_types::ResponseId. -/
inductive ResponseId where
  | connectorTransactionId (id : String)
  | encodedData (data : String)
  | noResponseId
  deriving Repr, DecidableEq

/-- router_response_types::MandateReference. -/
structure MandateReference where
  connector_mandate_id : Option String
  payment_method_id : Option String
  mandate_metadata : Option String
  connector_mandate_request_reference_id : Option String
  deriving Repr, DecidableEq

/-- router_response_types::RedirectForm, the canonical redirect descriptor.
The `(url, method)` conversion used by Nexinets and Globalpay produces this
form with the bare URL as endpoint. -/
inductive RedirectForm where
  | form (endpoint : String) (method : Method) (form_fields : List (String × String))
  deriving Repr, DecidableEq

/-- router_data::ErrorResponse, the normalized connector-error envelope. -/
structure ErrorResponse where
  code : String
  message : String
  reason : Option String
  status_code : Nat
  attempt_status : Option AttemptStatus
  connector_transaction_id : Option String
  network_advice_code : Option String
  network_decline_code : Option String
  network_error_message : Option String
  deriving Repr, DecidableEq

/-- `ErrorResponse::default()` as used by the Globalpay failure branch
(`..Default::default()`): empty code/message, no auxiliary data. -/
def ErrorResponse.default : ErrorResponse :=
  ⟨"", "", none, 0, none, none, none, none, none⟩

/-- router_response_types::PaymentsResponseData (the TransactionResponse
variant built by the embedded translators). -/
inductive PaymentsResponseData where
  | transactionResponse
      (resource_id : ResponseId)
      (redirection_data : Option RedirectForm)
      (mandate_reference : Option MandateReference)
      (connector_metadata : Option String)
      (network_txn_id : Option String)
      (connector_response_reference_id : Option String)
      (incremental_authorization_allowed : Option Bool)
      (charges : Option String)
  deriving Repr, DecidableEq

/-- The redirect descriptor carried by a success payments response. -/
def PaymentsResponseData.redirection : PaymentsResponseData → Option RedirectForm
  | .transactionResponse _ r _ _ _ _ _ _ => r

/-- router_response_types::RefundsResponseData. -/
structure RefundsResponseData where
  connector_refund_id : String
  refund_status : RefundStatus
  deriving Repr, DecidableEq

/-- Billing phone details (api_models::payments::PhoneDetails). -/
structure PhoneDetails where
  number : Option String
  country_code : Option String
  deriving Repr, DecidableEq

/-- Modelled from the spec: `PhoneDetailsData::get_number_with_hash_country_code`
of the connector utils crate (not in the source set) joins country code and
number with `#`; per §4.2, a missing field is reported as
`MissingRequiredField{field_name}`. -/
def PhoneDetails.get_number_with_hash_country_code
    (p : PhoneDetails) : Except ConnectorError String :=
  match p.country_code, p.number with
  | some cc, some n => .ok (cc ++ "#" ++ n)
  | _, _ => .error (.missingRequiredField "phone_number")

/-! ## RouterData: the per-call context threaded through one connector
operation (hyperswitch_domain_models::router_data::RouterData).  The carry
fields below are the ones the embedded transformers read or that the frame
claims quantify over; `..item.data` struct updates in the source become
Lean struct-update syntax on this record. -/

deriving instance DecidableEq for Except

structure RouterData (Req Resp : Type) where
  status : AttemptStatus
  response : Except ErrorResponse Resp
  connector_auth_type : ConnectorAuthType
  request : Req
  payment_method : PaymentMethod
  connector_request_reference_id : String
  reference_id : Option String
  connector_meta_data : Option String
  amount_captured : Option Int
  billing_country : Option Country
  billing_email : Option String
  billing_phone : Option PhoneDetails
  billing_full_name : Option String
  customer_id : Option String
  deriving Repr, DecidableEq

/-- Modelled from the spec: connector-utils accessor `get_billing_country`
(utils crate not in the source set); §4.2: missing required fields surface
as `MissingRequiredField`. -/
def RouterData.get_billing_country (rd : RouterData Req Resp) :
    Except ConnectorError Country :=
  match rd.billing_country with
  | some c => .ok c
  | none => .error (.missingRequiredField "billing.address.country")

/-- Modelled from the spec: connector-utils accessor `get_billing_email`. -/
def RouterData.get_billing_email (rd : RouterData Req Resp) :
    Except ConnectorError String :=
  match rd.billing_email with
  | some e => .ok e
  | none => .error (.missingRequiredField "billing.email")

/-- Modelled from the spec: connector-utils accessor `get_billing_phone`. -/
def RouterData.get_billing_phone (rd : RouterData Req Resp) :
    Except ConnectorError PhoneDetails :=
  match rd.billing_phone with
  | some p => .ok p
  | none => .error (.missingRequiredField "billing.address.phone")

/-- Modelled from the spec: connector-utils accessor `get_customer_id`. -/
def RouterData.get_customer_id (rd : RouterData Req Resp) :
    Except ConnectorError String :=
  match rd.customer_id with
  | some c => .ok c
  | none => .error (.missingRequiredField "customer_id")

/-- Connector-utils accessor `get_optional_billing_full_name` (total). -/
def RouterData.get_optional_billing_full_name (rd : RouterData Req Resp) :
    Option String :=
  rd.billing_full_name

/-- Modelled from the spec: connector-utils accessor `get_connector_meta`;
§4.2: missing required fields surface as `MissingRequiredField`. -/
def RouterData.get_connector_meta (rd : RouterData Req Resp) :
    Except ConnectorError String :=
  match rd.connector_meta_data with
  | some m => .ok m
  | none => .error (.missingRequiredField "connector_meta_data")

/-- crates' shared `ResponseRouterData`: the parsed connector response
paired with the inbound RouterData and the HTTP status code. -/
structure ResponseRouterData (R Req Resp : Type) where
  response : R
  data : RouterData Req Resp
  http_code : Nat

/-- `get_unimplemented_payment_method_error_message` of the connector utils
crate: the message attached to `NotImplemented` for unsupported payment
methods. -/
def get_unimplemented_payment_method_error_message (connector : String) : String :=
  "Selected payment method through " ++ connector

/-! ## The internal authorize request read by the builders
(router_request_types::PaymentsAuthorizeData, fields the embedded builders
use). -/

structure PaymentsAuthorizeData where
  payment_method_data : PaymentMethodData
  currency : Currency
  amount : Int
  capture_method : Option CaptureMethod
  mandate_id : Option MandateIds
  setup_mandate_details : Option Unit
  off_session : Option Bool
  router_return_url : Option String
  complete_authorize_url : Option String
  metadata : Option String
  order_category : Option String
  deriving Repr, DecidableEq

/-- `connector_mandate_id()` of PaymentsAuthorizeRequestData: project the
connector mandate id out of the mandate reference (mirrors the inline
extraction in the Globalpay source). -/
def PaymentsAuthorizeData.connector_mandate_id
    (req : PaymentsAuthorizeData) : Option String :=
  match req.mandate_id with
  | some ids =>
      match ids.mandate_reference_id with
      | some (.connectorMandateId cids) => cids.get_connector_mandate_id
      | _ => none
  | none => none

/-- Modelled from the spec: `is_mandate_payment` of the connector utils crate
(not in the source set).  §4.4: the request "signals future-usage or an
existing mandate id" through `setup_mandate_details` or `mandate_id`. -/
def PaymentsAuthorizeData.is_mandate_payment (req : PaymentsAuthorizeData) : Bool :=
  req.setup_mandate_details.isSome || req.mandate_id.isSome

/-- The refund request data read by the refund translators
(router_request_types::RefundsData, relevant fields). -/
structure RefundsData where
  refund_id : String
  connector_transaction_id : String
  connector_refund_id : Option String
  currency : Currency
  refund_amount : Int
  deriving Repr, DecidableEq

/-- Modelled from the spec: connector-utils `is_refund_failure`; §3 fixes the
canonical refund statuses as Success/Failure/Pending, of which Failure is
the failure case. -/
def is_refund_failure (s : RefundStatus) : Bool :=
  match s with
  | .failure => true
  | _ => false

/-! # Noon (connectors/noon/transformers.rs) -/

/-- NoonPaymentStatus: the connector's payment-status vocabulary. -/
inductive NoonPaymentStatus where
  | initiated
  | authorized
  | captured
  | partiallyCaptured
  | partiallyRefunded
  | paymentInfoAdded
  | threeDsEnrollInitiated
  | threeDsEnrollChecked
  | threeDsResultVerified
  | markedForReview
  | authenticated
  | partiallyReversed
  | pending
  | cancelled
  | failed
  | refunded
  | expired
  | reversed
  | rejected
  | locked
  deriving Repr, DecidableEq

/-- noon::get_payment_status: map the Noon status, given the previous attempt
status from the RouterData, to the canonical attempt status. -/
def get_payment_status (data : NoonPaymentStatus × AttemptStatus) : AttemptStatus :=
  let (item, current_status) := data
  match item with
  | .authorized => .authorized
  | .captured | .partiallyCaptured | .partiallyRefunded | .refunded => .charged
  | .reversed | .partiallyReversed => .voided
  | .cancelled | .expired => .authenticationFailed
  | .threeDsEnrollInitiated | .threeDsEnrollChecked => .authenticationPending
  | .threeDsResultVerified => .authenticationSuccessful
  | .failed | .rejected => .failure
  | .pending | .markedForReview => .pending
  | .initiated | .paymentInfoAdded | .authenticated => .started
  | .locked => current_status

/-- noon::NoonSubscriptionObject. -/
structure NoonSubscriptionObject where
  identifier : String
  deriving Repr, DecidableEq

/-- noon::NoonPaymentsOrderResponse. -/
structure NoonPaymentsOrderResponse where
  status : NoonPaymentStatus
  id : Nat
  error_code : Nat
  error_message : Option String
  reference : Option String
  deriving Repr, DecidableEq

/-- noon::NoonCheckoutData (redirect descriptor: the hosted-checkout URL). -/
structure NoonCheckoutData where
  post_url : String
  deriving Repr, DecidableEq

/-- noon::NoonPaymentsResponseResult. -/
structure NoonPaymentsResponseResult where
  order : NoonPaymentsOrderResponse
  checkout_data : Option NoonCheckoutData
  subscription : Option NoonSubscriptionObject
  deriving Repr, DecidableEq

/-- noon::NoonPaymentsResponse. -/
structure NoonPaymentsResponse where
  result : NoonPaymentsResponseResult
  deriving Repr, DecidableEq

/-- The Noon payments response translator
(`TryFrom<ResponseRouterData<F, NoonPaymentsResponse, T, PaymentsResponseData>>
for RouterData`): derive the status from (Noon status, previous status), build
the redirect form from `checkout_data`, the mandate reference from
`subscription`, and produce Err(ErrorResponse) exactly when the order carries
an `error_message`. -/
def noonPaymentsTranslate
    (item : ResponseRouterData NoonPaymentsResponse Req PaymentsResponseData) :
    Except ConnectorError (RouterData Req PaymentsResponseData) :=
  let order := item.response.result.order
  let status := get_payment_status (order.status, item.data.status)
  let redirection_data := item.response.result.checkout_data.map
    (fun redirection_data =>
      RedirectForm.form redirection_data.post_url Method.post [])
  let mandate_reference := item.response.result.subscription.map
    (fun subscription_data =>
      { connector_mandate_id := some subscription_data.identifier
        payment_method_id := none
        mandate_metadata := none
        connector_mandate_request_reference_id := none : MandateReference })
  .ok { item.data with
    status := status
    response :=
      match order.error_message with
      | some error_message =>
          .error { code := toString order.error_code
                   message := error_message
                   reason := some error_message
                   status_code := item.http_code
                   attempt_status := some status
                   connector_transaction_id := some (toString order.id)
                   network_advice_code := none
                   network_decline_code := none
                   network_error_message := none }
      | _ =>
          let connector_response_reference_id :=
            order.reference.or (some (toString order.id))
          .ok (.transactionResponse
            (.connectorTransactionId (toString order.id))
            redirection_data
            mandate_reference
            none
            none
            connector_response_reference_id
            none
            none) }

/-- noon::RefundStatus, the connector's own refund-status vocabulary. -/
inductive NoonRefundStatus where
  | success
  | failed
  | pending
  deriving Repr, DecidableEq

/-- `From<RefundStatus> for enums::RefundStatus` in the Noon transformers. -/
def NoonRefundStatus.toRefundStatus : NoonRefundStatus → RefundStatus
  | .success => .success
  | .failed => .failure
  | .pending => .pending

/-- noon::NoonRefundResponseTransactions (refund-sync list entry). -/
structure NoonRefundResponseTransactions where
  id : String
  status : NoonRefundStatus
  transaction_reference : Option String
  deriving Repr, DecidableEq

/-- noon::RefundSyncResponse. -/
structure NoonRefundSyncResponse where
  transactions : List NoonRefundResponseTransactions
  result_code : Nat
  class_description : String
  message : String
  deriving Repr, DecidableEq

/-- The Noon refund-sync translator
(`TryFrom<RefundsResponseRouterData<RSync, RefundSyncResponse>>`): find the
transaction whose `transaction_reference` equals the requested refund id;
absence is `ResponseHandlingFailed`; a failure refund status yields
Err(ErrorResponse). -/
def noonRefundSyncTranslate
    (item : ResponseRouterData NoonRefundSyncResponse RefundsData RefundsResponseData) :
    Except ConnectorError (RouterData RefundsData RefundsResponseData) :=
  match item.response.transactions.find?
      (fun transaction =>
        match transaction.transaction_reference with
        | some transaction_instance =>
            transaction_instance == item.data.request.refund_id
        | none => false) with
  | none => .error .responseHandlingFailed
  | some noon_transaction =>
      let refund_status := noon_transaction.status.toRefundStatus
      let response : Except ErrorResponse RefundsResponseData :=
        if is_refund_failure refund_status then
          .error { status_code := item.http_code
                   code := toString item.response.result_code
                   message := item.response.class_description
                   reason := some item.response.message
                   attempt_status := none
                   connector_transaction_id := some noon_transaction.id
                   network_advice_code := none
                   network_decline_code := none
                   network_error_message := none }
        else
          .ok { connector_refund_id := noon_transaction.id
                refund_status := refund_status }
      .ok { item.data with response := response }

/-! # ACI (connectors/aci/transformers.rs) -/

/-- aci::AciAuthType: accepts exactly the BodyKey credential shape. -/
structure AciAuthType where
  api_key : String
  entity_id : String
  deriving Repr, DecidableEq

/-- `TryFrom<&ConnectorAuthType> for AciAuthType`. -/
def AciAuthType.try_from (item : ConnectorAuthType) :
    Except ConnectorError AciAuthType :=
  match item with
  | .bodyKey api_key key1 => .ok { api_key := api_key, entity_id := key1 }
  | _ => .error .failedToObtainAuthType

/-- aci::PaymentBrand. -/
inductive AciPaymentBrand where
  | eps | eft | ideal | giropay | sofortueberweisung | interacOnline
  | przelewy | trustly | mbway | aliPay
  deriving Repr, DecidableEq

/-- aci::CardDetails. -/
structure AciCardDetails where
  card_number : String
  card_holder : String
  card_expiry_month : String
  card_expiry_year : String
  card_cvv : String
  deriving Repr, DecidableEq

/-- aci::BankRedirectionPMData. -/
structure BankRedirectionPMData where
  payment_brand : AciPaymentBrand
  bank_account_country : Option Country
  bank_account_bank_name : Option BankNames
  bank_account_bic : Option String
  bank_account_iban : Option String
  billing_country : Option Country
  customer_email : Option String
  merchant_customer_id : Option String
  merchant_transaction_id : Option String
  deriving Repr, DecidableEq

/-- aci::WalletPMData. -/
structure WalletPMData where
  payment_brand : AciPaymentBrand
  account_id : Option String
  deriving Repr, DecidableEq

/-- aci::PaymentDetails, the connector-side payment-method payload. -/
inductive AciPaymentDetails where
  | aciCard (details : AciCardDetails)
  | bankRedirect (details : BankRedirectionPMData)
  | wallet (details : WalletPMData)
  | klarna
  | mandate
  deriving Repr, DecidableEq

/-- aci::AciPaymentType. -/
inductive AciPaymentType where
  | preauthorization
  | debit
  | credit
  | capture
  | reversal
  | refund
  deriving Repr, DecidableEq

/-- aci::TransactionDetails.  String-major amounts are carried opaquely. -/
structure AciTransactionDetails where
  entity_id : String
  amount : String
  currency : String
  payment_type : AciPaymentType
  deriving Repr, DecidableEq

/-- aci::InstructionMode. -/
inductive InstructionMode where
  | initial
  | repeated
  deriving Repr, DecidableEq

/-- aci::InstructionType. -/
inductive InstructionType where
  | unscheduled
  deriving Repr, DecidableEq

/-- aci::InstructionSource (CIT/MIT). -/
inductive InstructionSource where
  | cardholderInitiatedTransaction
  | merchantInitiatedTransaction
  deriving Repr, DecidableEq

/-- aci::Instruction, the standing-instruction block of a mandate payment. -/
structure Instruction where
  mode : InstructionMode
  transaction_type : InstructionType
  source : InstructionSource
  create_registration : Option Bool
  deriving Repr, DecidableEq

/-- aci::AciPaymentsRequest, the authorize wire payload. -/
structure AciPaymentsRequest where
  txn_details : AciTransactionDetails
  payment_method : AciPaymentDetails
  instruction : Option Instruction
  shopper_result_url : Option String
  deriving Repr, DecidableEq

/-- aci::AciRouterData: the converted amount paired with the RouterData. -/
structure AciRouterData (T : Type) where
  amount : String
  router_data : T

/-- The ACI authorize context: amount view plus the authorize RouterData. -/
abbrev AciAuthorizeItem :=
  AciRouterData (RouterData PaymentsAuthorizeData PaymentsResponseData)

/-- `TryFrom<(&WalletData, &PaymentsAuthorizeRouterData)> for PaymentDetails`:
MbWay needs the billing phone, AliPay needs nothing, every other wallet is
NotImplemented. -/
def aciPaymentDetailsFromWallet (wallet_data : WalletData)
    (item : RouterData PaymentsAuthorizeData PaymentsResponseData) :
    Except ConnectorError AciPaymentDetails :=
  match wallet_data with
  | .mbWayRedirect => do
      let phone_details ← item.get_billing_phone
      let number ← phone_details.get_number_with_hash_country_code
      .ok (.wallet { payment_brand := .mbway, account_id := some number })
  | .aliPayRedirect =>
      .ok (.wallet { payment_brand := .aliPay, account_id := none })
  | _ => .error (.notImplemented "Payment method")

/-- `TryFrom<(&AciRouterData<...>, &BankRedirectData)> for PaymentDetails`:
build the bank-redirect payload, pulling billing country / email / customer
data as each scheme requires; unsupported schemes are NotImplemented. -/
def aciPaymentDetailsFromBankRedirect (item : AciAuthorizeItem)
    (bank_redirect_data : BankRedirectData) :
    Except ConnectorError AciPaymentDetails :=
  match bank_redirect_data with
  | .eps => do
      let country ← item.router_data.get_billing_country
      .ok (.bankRedirect
        { payment_brand := .eps, bank_account_country := some country
          bank_account_bank_name := none, bank_account_bic := none
          bank_account_iban := none, billing_country := none
          customer_email := none, merchant_customer_id := none
          merchant_transaction_id := none })
  | .eft => do
      let country ← item.router_data.get_billing_country
      .ok (.bankRedirect
        { payment_brand := .eft, bank_account_country := some country
          bank_account_bank_name := none, bank_account_bic := none
          bank_account_iban := none, billing_country := none
          customer_email := none, merchant_customer_id := none
          merchant_transaction_id := none })
  | .giropay bank_account_bic bank_account_iban => do
      let country ← item.router_data.get_billing_country
      .ok (.bankRedirect
        { payment_brand := .giropay, bank_account_country := some country
          bank_account_bank_name := none, bank_account_bic := bank_account_bic
          bank_account_iban := bank_account_iban, billing_country := none
          customer_email := none, merchant_customer_id := none
          merchant_transaction_id := none })
  | .ideal bank_name => do
      let country ← item.router_data.get_billing_country
      let bank ←
        match bank_name with
        | some bank => Except.ok bank
        | none => Except.error (ConnectorError.missingRequiredField "ideal.bank_name")
      .ok (.bankRedirect
        { payment_brand := .ideal, bank_account_country := some country
          bank_account_bank_name := some bank, bank_account_bic := none
          bank_account_iban := none, billing_country := none
          customer_email := none, merchant_customer_id := none
          merchant_transaction_id := none })
  | .sofort => do
      let country ← item.router_data.get_billing_country
      .ok (.bankRedirect
        { payment_brand := .sofortueberweisung, bank_account_country := some country
          bank_account_bank_name := none, bank_account_bic := none
          bank_account_iban := none, billing_country := none
          customer_email := none, merchant_customer_id := none
          merchant_transaction_id := none })
  | .przelewy24 => do
      let email ← item.router_data.get_billing_email
      .ok (.bankRedirect
        { payment_brand := .przelewy, bank_account_country := none
          bank_account_bank_name := none, bank_account_bic := none
          bank_account_iban := none, billing_country := none
          customer_email := some email, merchant_customer_id := none
          merchant_transaction_id := none })
  | .interac => do
      let country ← item.router_data.get_billing_country
      let email ← item.router_data.get_billing_email
      .ok (.bankRedirect
        { payment_brand := .interacOnline, bank_account_country := some country
          bank_account_bank_name := none, bank_account_bic := none
          bank_account_iban := none, billing_country := none
          customer_email := some email, merchant_customer_id := none
          merchant_transaction_id := none })
  | .trustly => do
      let billing_country ← item.router_data.get_billing_country
      let customer ← item.router_data.get_customer_id
      .ok (.bankRedirect
        { payment_brand := .trustly, bank_account_country := none
          bank_account_bank_name := none, bank_account_bic := none
          bank_account_iban := none, billing_country := some billing_country
          customer_email := none, merchant_customer_id := some customer
          merchant_transaction_id :=
            some item.router_data.connector_request_reference_id })
  | _ => .error (.notImplemented "Payment method")

/-- `TryFrom<(Card, Option<Secret<String>>)> for PaymentDetails`. -/
def aciPaymentDetailsFromCard (card_data : Card)
    (card_holder_name : Option String) : Except ConnectorError AciPaymentDetails :=
  .ok (.aciCard
    { card_number := card_data.card_number
      card_holder := card_holder_name.getD ""
      card_expiry_month := card_data.card_exp_month
      card_expiry_year := card_data.card_exp_year
      card_cvv := card_data.card_cvc })

/-- aci::get_transaction_details: resolve auth and assemble the shared
transaction block (Debit payment type for authorize). -/
def aci_get_transaction_details (item : AciAuthorizeItem) :
    Except ConnectorError AciTransactionDetails := do
  let auth ← AciAuthType.try_from item.router_data.connector_auth_type
  .ok { entity_id := auth.entity_id
        amount := item.amount
        currency := item.router_data.request.currency.toText
        payment_type := .debit }

/-- aci::get_instruction_details: `setup_mandate_details` present means an
initial, cardholder-initiated standing instruction with registration
requested; otherwise a present `mandate_id` means a repeated,
merchant-initiated instruction. -/
def aci_get_instruction_details (item : AciAuthorizeItem) : Option Instruction :=
  if item.router_data.request.setup_mandate_details.isSome then
    some { mode := .initial
           transaction_type := .unscheduled
           source := .cardholderInitiatedTransaction
           create_registration := some true }
  else if item.router_data.request.mandate_id.isSome then
    some { mode := .repeated
           transaction_type := .unscheduled
           source := .merchantInitiatedTransaction
           create_registration := none }
  else
    none

/-- `TryFrom<&AciRouterData<&PaymentsAuthorizeRouterData>> for
AciPaymentsRequest`: dispatch on the payment-method-data variant; variants
without an ACI mapping are NotImplemented. -/
def aciPaymentsRequestTryFrom (item : AciAuthorizeItem) :
    Except ConnectorError AciPaymentsRequest :=
  match item.router_data.request.payment_method_data with
  | .card card_data => do
      let card_holder_name := item.router_data.get_optional_billing_full_name
      let txn_details ← aci_get_transaction_details item
      let payment_method ← aciPaymentDetailsFromCard card_data card_holder_name
      let instruction := aci_get_instruction_details item
      .ok { txn_details := txn_details
            payment_method := payment_method
            instruction := instruction
            shopper_result_url := none }
  | .wallet wallet_data => do
      let txn_details ← aci_get_transaction_details item
      let payment_method ← aciPaymentDetailsFromWallet wallet_data item.router_data
      .ok { txn_details := txn_details
            payment_method := payment_method
            instruction := none
            shopper_result_url := item.router_data.request.router_return_url }
  | .payLater _ => do
      let txn_details ← aci_get_transaction_details item
      .ok { txn_details := txn_details
            payment_method := .klarna
            instruction := none
            shopper_result_url := item.router_data.request.router_return_url }
  | .bankRedirect bank_redirect_data => do
      let txn_details ← aci_get_transaction_details item
      let payment_method ← aciPaymentDetailsFromBankRedirect item bank_redirect_data
      .ok { txn_details := txn_details
            payment_method := payment_method
            instruction := none
            shopper_result_url := item.router_data.request.router_return_url }
  | .mandatePayment => do
      let _mandate_id ←
        match item.router_data.request.mandate_id with
        | some m => Except.ok m
        | none => Except.error (ConnectorError.missingRequiredField "mandate_id")
      let instruction := aci_get_instruction_details item
      let txn_details ← aci_get_transaction_details item
      .ok { txn_details := txn_details
            payment_method := .mandate
            instruction := instruction
            shopper_result_url := item.router_data.request.router_return_url }
  | _ =>
      .error (.notImplemented
        (get_unimplemented_payment_method_error_message "Aci"))

/-- aci::AciPaymentStatus. -/
inductive AciPaymentStatus where
  | succeeded
  | failed
  | pending
  | redirectShopper
  deriving Repr, DecidableEq

/-- aci::map_aci_attempt_status: Succeeded splits on the auto-capture flag;
RedirectShopper is AuthenticationPending. -/
def map_aci_attempt_status (item : AciPaymentStatus) (auto_capture : Bool) :
    AttemptStatus :=
  match item with
  | .succeeded => if auto_capture then .charged else .authorized
  | .failed => .failure
  | .pending => .authorizing
  | .redirectShopper => .authenticationPending

/-- `FromStr for AciPaymentStatus`, parameterised by the three result-code
lists of `aci_result_codes` (FAILURE_CODES, PENDING_CODES, SUCCESSFUL_CODES;
that module is not part of the source set, so the lists are arguments):
failure codes are checked first, then pending, then success; anything else is
an UnexpectedResponseError. -/
def AciPaymentStatus.from_str (failure_codes pending_codes successful_codes :
    List String) (s : String) : Except ConnectorError AciPaymentStatus :=
  if failure_codes.contains s then .ok .failed
  else if pending_codes.contains s then .ok .pending
  else if successful_codes.contains s then .ok .succeeded
  else .error (.unexpectedResponseError s)

/-- aci::Parameters (redirect parameter name/value pair). -/
structure AciParameters where
  name : String
  value : String
  deriving Repr, DecidableEq

/-- aci::AciRedirectionData. -/
structure AciRedirectionData where
  method : Option Method
  parameters : List AciParameters
  url : String
  deriving Repr, DecidableEq

/-- aci::ResultCode. -/
structure AciResultCode where
  code : String
  description : String
  parameter_errors : Option (List String)
  deriving Repr, DecidableEq

/-- aci::AciPaymentsResponse. -/
structure AciPaymentsResponse where
  id : String
  registration_id : Option String
  ndc : String
  timestamp : String
  build_number : String
  result : AciResultCode
  redirect : Option AciRedirectionData
  deriving Repr, DecidableEq

/-- The ACI payments response translator
(`TryFrom<ResponseRouterData<F, AciPaymentsResponse, Req, PaymentsResponseData>>`),
generic over the request type through the `GetCaptureMethod` accessor and
over the result-code lists.  A populated redirect descriptor forces the
RedirectShopper status regardless of the result code; otherwise the code is
classified via `from_str`.  The response slot is always Ok. -/
def aciPaymentsTranslate (failure_codes pending_codes successful_codes : List String)
    (get_capture_method : Req → Option CaptureMethod)
    (item : ResponseRouterData AciPaymentsResponse Req PaymentsResponseData) :
    Except ConnectorError (RouterData Req PaymentsResponseData) := do
  let redirection_data := item.response.redirect.map (fun data =>
    let form_fields := data.parameters.map
      (fun parameter => (parameter.name, parameter.value))
    RedirectForm.form data.url (data.method.getD Method.post) form_fields)
  let mandate_reference := item.response.registration_id.map (fun id =>
    { connector_mandate_id := some id
      payment_method_id := none
      mandate_metadata := none
      connector_mandate_request_reference_id := none : MandateReference })
  let auto_capture :=
    match get_capture_method item.data.request with
    | some .automatic => true
    | none => true
    | _ => false
  let status ←
    if redirection_data.isSome then
      Except.ok (map_aci_attempt_status .redirectShopper auto_capture)
    else do
      let parsed ← AciPaymentStatus.from_str failure_codes pending_codes
        successful_codes item.response.result.code
      Except.ok (map_aci_attempt_status parsed auto_capture)
  .ok { item.data with
    status := status
    response := .ok (.transactionResponse
      (.connectorTransactionId item.response.id)
      redirection_data
      mandate_reference
      none
      none
      (some item.response.id)
      none
      none) }

/-- aci::AciCaptureResult. -/
structure AciCaptureResult where
  code : String
  description : String
  deriving Repr, DecidableEq

/-- aci::AciCaptureResultDetails. -/
structure AciCaptureResultDetails where
  extended_description : String
  clearing_institute_name : String
  connector_tx_id1 : String
  connector_tx_id3 : String
  connector_tx_id2 : String
  acquirer_response : String
  deriving Repr, DecidableEq

/-- aci::AciCaptureResponse. -/
structure AciCaptureResponse where
  id : String
  referenced_id : String
  payment_type : AciPaymentType
  amount : String
  currency : String
  descriptor : String
  result : AciCaptureResult
  result_details : AciCaptureResultDetails
  build_number : String
  timestamp : String
  ndc : String
  source : String
  payment_method : String
  short_id : String
  deriving Repr, DecidableEq

/-- The ACI capture response translator
(`TryFrom<ResponseRouterData<F, AciCaptureResponse, T, PaymentsResponseData>>`):
classify the result code with auto_capture = false, and — besides status and
response — overwrite `reference_id` with the connector's `referenced_id`. -/
def aciCaptureTranslate (failure_codes pending_codes successful_codes : List String)
    (item : ResponseRouterData AciCaptureResponse Req PaymentsResponseData) :
    Except ConnectorError (RouterData Req PaymentsResponseData) := do
  let parsed ← AciPaymentStatus.from_str failure_codes pending_codes
    successful_codes item.response.result.code
  .ok { item.data with
    status := map_aci_attempt_status parsed false
    reference_id := some item.response.referenced_id
    response := .ok (.transactionResponse
      (.connectorTransactionId item.response.id)
      none
      none
      none
      none
      (some item.response.referenced_id)
      none
      none) }

/-! # Nexinets (connectors/nexinets/transformers.rs) -/

/-- nexinets::NexinetsPaymentStatus. -/
inductive NexinetsPaymentStatus where
  | success
  | pending
  | ok
  | failure
  | declined
  | inProgress
  | expired
  | aborted
  deriving Repr, DecidableEq

/-- nexinets::NexinetsTransactionType. -/
inductive NexinetsTransactionType where
  | preauth
  | debit
  | capture
  | cancel
  deriving Repr, DecidableEq

/-- nexinets::get_status: the attempt status is a function of the connector
status and the transaction type (preauth/debit/capture/cancel). -/
def nexinets_get_status (status : NexinetsPaymentStatus)
    (method : NexinetsTransactionType) : AttemptStatus :=
  match status with
  | .success =>
      match method with
      | .preauth => .authorized
      | .debit | .capture => .charged
      | .cancel => .voided
  | .declined | .failure | .expired | .aborted =>
      match method with
      | .preauth => .authorizationFailed
      | .debit | .capture => .captureFailed
      | .cancel => .voidFailed
  | .ok =>
      match method with
      | .preauth => .authorized
      | _ => .pending
  | .pending => .authenticationPending
  | .inProgress => .pending

/-- nexinets::PaymentInstrument. -/
structure NexinetsPaymentInstrument where
  payment_instrument_id : Option String
  deriving Repr, DecidableEq

/-- nexinets::NexinetsTransaction (sync/response list entry). -/
structure NexinetsTransaction where
  transaction_id : String
  transaction_type : NexinetsTransactionType
  currency : Currency
  status : NexinetsPaymentStatus
  deriving Repr, DecidableEq

/-- nexinets::NexinetsPreAuthOrDebitResponse. -/
structure NexinetsPreAuthOrDebitResponse where
  order_id : String
  transaction_type : NexinetsTransactionType
  transactions : List NexinetsTransaction
  payment_instrument : NexinetsPaymentInstrument
  redirect_url : Option String
  deriving Repr, DecidableEq

/-- nexinets::NexinetsPaymentsMetadata. -/
structure NexinetsPaymentsMetadata where
  transaction_id : Option String
  order_id : Option String
  psync_flow : NexinetsTransactionType
  deriving Repr, DecidableEq

/-- An opening curly brace, kept out of string literals. -/
def braceL : String := String.mk [Char.ofNat 123]

/-- A closing curly brace, kept out of string literals. -/
def braceR : String := String.mk [Char.ofNat 125]

/-- The `serde_json::to_value` rendering of the connector metadata; the
serialization of this plain struct is total. -/
def NexinetsPaymentsMetadata.encode (m : NexinetsPaymentsMetadata) : String :=
  braceL ++ "transaction_id:" ++ toString (repr m.transaction_id) ++
    ",order_id:" ++ toString (repr m.order_id) ++ braceR

/-- The Nexinets preauth/debit response translator
(`TryFrom<ResponseRouterData<F, NexinetsPreAuthOrDebitResponse, T, ...>>`):
an empty transaction list is ResponseHandlingFailed; the status comes from
the first transaction's status and the response's transaction type; a
redirect URL becomes a GET redirect form but does not influence the status. -/
def nexinetsPreAuthOrDebitTranslate
    (item : ResponseRouterData NexinetsPreAuthOrDebitResponse Req PaymentsResponseData) :
    Except ConnectorError (RouterData Req PaymentsResponseData) := do
  let transaction ←
    match item.response.transactions.head? with
    | some order => Except.ok order
    | none => Except.error ConnectorError.responseHandlingFailed
  let connector_metadata :=
    NexinetsPaymentsMetadata.encode
      { transaction_id := some transaction.transaction_id
        order_id := some item.response.order_id
        psync_flow := item.response.transaction_type }
  let redirection_data := item.response.redirect_url.map
    (fun url => RedirectForm.form url Method.get [])
  let resource_id ←
    match item.response.transaction_type with
    | .preauth => Except.ok ResponseId.noResponseId
    | .debit =>
        Except.ok (ResponseId.connectorTransactionId transaction.transaction_id)
    | _ => Except.error ConnectorError.responseHandlingFailed
  let mandate_reference :=
    item.response.payment_instrument.payment_instrument_id.map (fun id =>
      { connector_mandate_id := some id
        payment_method_id := none
        mandate_metadata := none
        connector_mandate_request_reference_id := none : MandateReference })
  .ok { item.data with
    status := nexinets_get_status transaction.status item.response.transaction_type
    response := .ok (.transactionResponse
      resource_id
      redirection_data
      mandate_reference
      (some connector_metadata)
      none
      (some item.response.order_id)
      none
      none) }

/-- nexinets::NexinetsOrder. -/
structure NexinetsOrder where
  order_id : String
  deriving Repr, DecidableEq

/-- nexinets::NexinetsPaymentResponse (capture/cancel response). -/
structure NexinetsPaymentResponse where
  transaction_id : String
  status : NexinetsPaymentStatus
  order : NexinetsOrder
  transaction_type : NexinetsTransactionType
  deriving Repr, DecidableEq

/-- The Nexinets payment (capture/cancel) response translator
(`TryFrom<ResponseRouterData<F, NexinetsPaymentResponse, T, ...>>`): replace
status and response, carry every other RouterData field. -/
def nexinetsPaymentTranslate
    (item : ResponseRouterData NexinetsPaymentResponse Req PaymentsResponseData) :
    Except ConnectorError (RouterData Req PaymentsResponseData) := do
  let transaction_id := some item.response.transaction_id
  let connector_metadata :=
    NexinetsPaymentsMetadata.encode
      { transaction_id := transaction_id
        order_id := some item.response.order.order_id
        psync_flow := item.response.transaction_type }
  let resource_id :=
    match item.response.transaction_type with
    | .debit | .capture =>
        ResponseId.connectorTransactionId item.response.transaction_id
    | _ => ResponseId.noResponseId
  .ok { item.data with
    status := nexinets_get_status item.response.status item.response.transaction_type
    response := .ok (.transactionResponse
      resource_id
      none
      none
      (some connector_metadata)
      none
      (some item.response.order.order_id)
      none
      none) }

/-! ## Nexinets authorize request builder. -/

/-- nexinets::CardDetails. -/
structure NexinetsCardDetails where
  card_number : String
  expiry_month : String
  expiry_year : String
  verification : String
  deriving Repr, DecidableEq

/-- nexinets::CardDataDetails. -/
inductive CardDataDetails where
  | cardDetails (details : NexinetsCardDetails)
  | paymentInstrument (details : NexinetsPaymentInstrument)
  deriving Repr, DecidableEq

/-- nexinets::RecurringType. -/
inductive RecurringType where
  | unscheduled
  deriving Repr, DecidableEq

/-- nexinets::CofContract. -/
structure CofContract where
  recurring_type : RecurringType
  deriving Repr, DecidableEq

/-- nexinets::NexiCardDetails. -/
structure NexiCardDetails where
  card_data : CardDataDetails
  cof_contract : Option CofContract
  deriving Repr, DecidableEq

/-- nexinets::NexinetsBIC, the supported iDEAL banks. -/
inductive NexinetsBIC where
  | abnAmro | asnBank | bunq | ing | knab | rabobank | regiobank | snsBank
  | triodosBank | vanLanschot
  deriving Repr, DecidableEq

/-- `TryFrom<&enums::BankNames> for NexinetsBIC`: banks outside the supported
set are a FlowNotSupported error. -/
def NexinetsBIC.try_from (bank : BankNames) : Except ConnectorError NexinetsBIC :=
  match bank with
  | .abnAmro => .ok .abnAmro
  | .asnBank => .ok .asnBank
  | .bunq => .ok .bunq
  | .ing => .ok .ing
  | .knab => .ok .knab
  | .rabobank => .ok .rabobank
  | .regiobank => .ok .regiobank
  | .snsBank => .ok .snsBank
  | .triodosBank => .ok .triodosBank
  | .vanLanschot => .ok .vanLanschot
  | _ => .error (.flowNotSupported bank.toText "Nexinets")

/-- nexinets::NexinetsBankRedirects. -/
structure NexinetsBankRedirects where
  bic : Option NexinetsBIC
  deriving Repr, DecidableEq

/-- nexinets::ApplepayPaymentMethod. -/
structure NexinetsApplepayPaymentMethod where
  display_name : String
  network : String
  token_type : String
  deriving Repr, DecidableEq

/-- nexinets::ApplePayDetails; `payment_data` is the wallet token decoded as
JSON (kept as the decoded string). -/
structure NexinetsApplePayDetails where
  payment_data : String
  payment_method : NexinetsApplepayPaymentMethod
  transaction_identifier : String
  deriving Repr, DecidableEq

/-- nexinets::NexinetsWalletDetails. -/
inductive NexinetsWalletDetails where
  | applePayToken (details : NexinetsApplePayDetails)
  deriving Repr, DecidableEq

/-- nexinets::NexinetsPaymentDetails. -/
inductive NexinetsPaymentDetails where
  | card (details : NexiCardDetails)
  | wallet (details : NexinetsWalletDetails)
  | bankRedirects (details : NexinetsBankRedirects)
  deriving Repr, DecidableEq

/-- nexinets::NexinetsProduct. -/
inductive NexinetsProduct where
  | creditcard
  | paypal
  | giropay
  | sofort
  | eps
  | ideal
  | applepay
  deriving Repr, DecidableEq

/-- nexinets::NexinetsAsyncDetails. -/
structure NexinetsAsyncDetails where
  success_url : Option String
  cancel_url : Option String
  failure_url : Option String
  deriving Repr, DecidableEq

/-- nexinets::NexinetsPaymentsRequest, the authorize wire payload. -/
structure NexinetsPaymentsRequest where
  initial_amount : Int
  currency : Currency
  product : NexinetsProduct
  payment : Option NexinetsPaymentDetails
  nexinets_async : NexinetsAsyncDetails
  merchant_order_id : Option String
  deriving Repr, DecidableEq

/-- Modelled from the spec: `get_card_expiry_year_2_digit` of the connector
utils crate keeps the last two characters of the expiry year. -/
def get_card_expiry_year_2_digit (card : Card) : String :=
  let year := card.card_exp_year
  String.mk (year.toList.drop (year.length - 2))

/-- nexinets::get_card_details. -/
def nexinets_get_card_details (req_card : Card) :
    Except ConnectorError NexinetsCardDetails :=
  .ok { card_number := req_card.card_number
        expiry_month := req_card.card_exp_month
        expiry_year := get_card_expiry_year_2_digit req_card
        verification := req_card.card_cvc }

/-- nexinets::get_card_data: mandate payments with off_session reuse the
stored payment instrument; everything else sends raw card details, with a
card-on-file contract attached for mandate payments. -/
def nexinets_get_card_data (request : PaymentsAuthorizeData) (card : Card) :
    Except ConnectorError NexinetsPaymentDetails := do
  let (card_data, cof_contract) ←
    match request.is_mandate_payment with
    | true => do
        let card_data ←
          match request.off_session with
          | some true =>
              Except.ok (CardDataDetails.paymentInstrument
                { payment_instrument_id := request.connector_mandate_id })
          | _ => do
              let details ← nexinets_get_card_details card
              Except.ok (CardDataDetails.cardDetails details)
        Except.ok (card_data, some { recurring_type := RecurringType.unscheduled : CofContract })
    | false => do
        let details ← nexinets_get_card_details card
        Except.ok (CardDataDetails.cardDetails details, (none : Option CofContract))
  .ok (.card { card_data := card_data, cof_contract := cof_contract })

/-- Modelled from the spec: `get_wallet_token_as_json` of the connector utils
crate decodes the wallet token string as JSON; §7: malformed connector-bound
data becomes a typed parse error, never an unwrap.  The serde decode itself
is an external library call, passed in as `parse_wallet_token`. -/
def get_wallet_token_as_json (parse_wallet_token : String → Option String)
    (payment_data : String) (wallet_name : String) :
    Except ConnectorError String :=
  match parse_wallet_token payment_data with
  | some v => .ok v
  | none => .error (.invalidWalletToken wallet_name)

/-- nexinets::get_applepay_details. -/
def nexinets_get_applepay_details (parse_wallet_token : String → Option String)
    (applepay_data : ApplePayWalletData) :
    Except ConnectorError NexinetsApplePayDetails := do
  let payment_data ← get_wallet_token_as_json parse_wallet_token
    applepay_data.payment_data "Apple Pay"
  .ok { payment_data := payment_data
        payment_method :=
          { display_name := applepay_data.payment_method.display_name
            network := applepay_data.payment_method.network
            token_type := applepay_data.payment_method.pm_type }
        transaction_identifier := applepay_data.transaction_identifier }

/-- nexinets::get_wallet_details: PayPal and ApplePay are supported, every
other wallet is NotImplemented. -/
def nexinets_get_wallet_details (parse_wallet_token : String → Option String)
    (wallet : WalletData) :
    Except ConnectorError (Option NexinetsPaymentDetails × NexinetsProduct) :=
  match wallet with
  | .paypalRedirect => .ok (none, .paypal)
  | .applePay applepay_data => do
      let details ← nexinets_get_applepay_details parse_wallet_token applepay_data
      .ok (some (.wallet (.applePayToken details)), .applepay)
  | _ =>
      .error (.notImplemented
        (get_unimplemented_payment_method_error_message "nexinets"))

/-- nexinets::get_payment_details_and_product: the per-variant dispatch of
the Nexinets authorize builder. -/
def get_payment_details_and_product (parse_wallet_token : String → Option String)
    (item : RouterData PaymentsAuthorizeData PaymentsResponseData) :
    Except ConnectorError (Option NexinetsPaymentDetails × NexinetsProduct) :=
  match item.request.payment_method_data with
  | .card card => do
      let details ← nexinets_get_card_data item.request card
      .ok (some details, .creditcard)
  | .wallet wallet => nexinets_get_wallet_details parse_wallet_token wallet
  | .bankRedirect bank_redirect =>
      match bank_redirect with
      | .eps => .ok (none, .eps)
      | .giropay _ _ => .ok (none, .giropay)
      | .ideal bank_name => do
          let bic ←
            match bank_name with
            | some bank => do
                let b ← NexinetsBIC.try_from bank
                Except.ok (some b)
            | none => Except.ok none
          .ok (some (.bankRedirects { bic := bic }), .ideal)
      | .sofort => .ok (none, .sofort)
      | _ =>
          .error (.notImplemented
            (get_unimplemented_payment_method_error_message "nexinets"))
  | _ =>
      .error (.notImplemented
        (get_unimplemented_payment_method_error_message "nexinets"))

/-- `TryFrom<&PaymentsAuthorizeRouterData> for NexinetsPaymentsRequest`:
compose return URLs, payment details and product; the merchant order id is
sent only for card payments. -/
def nexinetsPaymentsRequestTryFrom (parse_wallet_token : String → Option String)
    (item : RouterData PaymentsAuthorizeData PaymentsResponseData) :
    Except ConnectorError NexinetsPaymentsRequest := do
  let return_url := item.request.router_return_url
  let nexinets_async : NexinetsAsyncDetails :=
    { success_url := return_url, cancel_url := return_url, failure_url := return_url }
  let (payment, product) ← get_payment_details_and_product parse_wallet_token item
  let merchant_order_id :=
    match item.payment_method with
    | .card => some item.connector_request_reference_id
    | _ => none
  .ok { initial_amount := item.request.amount
        currency := item.request.currency
        product := product
        payment := payment
        nexinets_async := nexinets_async
        merchant_order_id := merchant_order_id }

/-! # Fiserv (connectors/fiserv/transformers.rs) -/

/-- fiserv::FiservAuthType: accepts exactly the SignatureKey shape. -/
structure FiservAuthType where
  api_key : String
  merchant_account : String
  api_secret : String
  deriving Repr, DecidableEq

/-- `TryFrom<&ConnectorAuthType> for FiservAuthType`. -/
def FiservAuthType.try_from (auth_type : ConnectorAuthType) :
    Except ConnectorError FiservAuthType :=
  match auth_type with
  | .signatureKey api_key key1 api_secret =>
      .ok { api_key := api_key, merchant_account := key1, api_secret := api_secret }
  | _ => .error .failedToObtainAuthType

/-- fiserv::Amount: float-major amounts modelled as exact rationals. -/
structure FiservAmount where
  total : ℚ
  currency : String
  deriving Repr, DecidableEq

/-- fiserv::TransactionDetails. -/
structure FiservTransactionDetails where
  capture_flag : Option Bool
  reversal_reason_code : Option String
  merchant_transaction_id : Option String
  deriving Repr, DecidableEq

/-- fiserv::MerchantDetails. -/
structure FiservMerchantDetails where
  merchant_id : String
  terminal_id : Option String
  deriving Repr, DecidableEq

/-- fiserv::IntermediateSigningKey. -/
structure IntermediateSigningKey where
  signed_key : String
  signatures : List String
  deriving Repr, DecidableEq

/-- fiserv::SignedKey (decoded intermediate signing key). -/
structure SignedKey where
  key_value : String
  key_expiration : String
  deriving Repr, DecidableEq

/-- fiserv::SignedMessage (decoded signed message). -/
structure SignedMessage where
  encrypted_message : String
  ephemeral_public_key : String
  tag : String
  deriving Repr, DecidableEq

/-- fiserv::RawGooglePayToken, the outer shape of a Google Pay token. -/
structure RawGooglePayToken where
  signature : String
  protocol_version : String
  signed_message : String
  intermediate_signing_key : IntermediateSigningKey
  deriving Repr, DecidableEq

/-- fiserv::FullyParsedGooglePayToken. -/
structure FullyParsedGooglePayToken where
  signature : String
  protocol_version : String
  encrypted_message : String
  ephemeral_public_key : String
  tag : String
  key_value : String
  key_expiration : String
  signatures : List String
  deriving Repr, DecidableEq

/-- `FullyParsedGooglePayToken::default()`: every field empty. -/
def FullyParsedGooglePayToken.default : FullyParsedGooglePayToken :=
  ⟨"", "", "", "", "", "", "", []⟩

/-- fiserv::parse_googlepay_token_safely: best-effort decode of a Google Pay
token.  The three serde_json decodes are external library calls and are
passed in as arguments.  Each decodable layer fills its fields; each
undecodable layer leaves the defaults in place; the function never fails. -/
def parse_googlepay_token_safely
    (parse_raw : String → Option RawGooglePayToken)
    (parse_signed_key : String → Option SignedKey)
    (parse_signed_message : String → Option SignedMessage)
    (token_json_str : String) : FullyParsedGooglePayToken :=
  let result := FullyParsedGooglePayToken.default
  match parse_raw token_json_str with
  | none => result
  | some raw_token =>
      let result := { result with
        signature := raw_token.signature
        protocol_version := raw_token.protocol_version
        signatures := raw_token.intermediate_signing_key.signatures }
      let result :=
        match parse_signed_key raw_token.intermediate_signing_key.signed_key with
        | some key =>
            { result with key_value := key.key_value
                          key_expiration := key.key_expiration }
        | none => result
      match parse_signed_message raw_token.signed_message with
      | some message =>
          { result with encrypted_message := message.encrypted_message
                        ephemeral_public_key := message.ephemeral_public_key
                        tag := message.tag }
      | none => result

/-- fiserv::GooglePayData, the wallet payload sent to Fiserv.  The
`signed_key` field is the re-encoded `{"keyValue": .., "keyExpiration": ..}`
JSON object. -/
structure FiservGooglePayData where
  data : String
  signature : String
  version : String
  intermediate_signing_key : IntermediateSigningKey
  deriving Repr, DecidableEq

/-- The `serde_json::json!` re-encoding of the signed key sent to Fiserv. -/
def encode_signed_key (key_value key_expiration : String) : String :=
  braceL ++ "keyValue:" ++ key_value ++ ",keyExpiration:" ++ key_expiration ++ braceR

/-- fiserv::CardData. -/
structure FiservCardData where
  card_data : String
  expiration_month : String
  expiration_year : String
  security_code : Option String
  deriving Repr, DecidableEq

/-- fiserv::Source. -/
inductive FiservSource where
  | googlePay (data : FiservGooglePayData)
  | paymentCard (card : FiservCardData)
  deriving Repr, DecidableEq

/-- fiserv::TransactionInteraction (fixed e-commerce values). -/
structure FiservTransactionInteraction where
  origin : String
  eci_indicator : String
  pos_condition_code : String
  deriving Repr, DecidableEq

/-- fiserv::FiservSessionObject (decoded merchant connector metadata). -/
structure FiservSessionObject where
  terminal_id : String
  deriving Repr, DecidableEq

/-- fiserv::FiservPaymentsRequest, the authorize wire payload. -/
structure FiservPaymentsRequest where
  amount : FiservAmount
  source : FiservSource
  transaction_details : FiservTransactionDetails
  merchant_details : FiservMerchantDetails
  transaction_interaction : Option FiservTransactionInteraction
  deriving Repr, DecidableEq

/-- Modelled from the spec: `get_expiry_year_4_digit` of the connector utils
crate prefixes a two-digit year with "20" (total). -/
def get_expiry_year_4_digit (card : Card) : String :=
  if card.card_exp_year.length == 2 then "20" ++ card.card_exp_year
  else card.card_exp_year

/-- fiserv::FiservRouterData: the converted float-major amount paired with
the RouterData. -/
structure FiservRouterData (T : Type) where
  amount : ℚ
  router_data : T

/-- The Fiserv authorize context. -/
abbrev FiservAuthorizeItem :=
  FiservRouterData (RouterData PaymentsAuthorizeData PaymentsResponseData)

/-- The `metadata.parse_value("FiservSessionObject")` step of the Fiserv
builders: a metadata blob that does not decode is an InvalidConnectorConfig
error (the serde decode itself is the `parse_session` argument). -/
def fiserv_parse_session (parse_session : String → Option FiservSessionObject)
    (metadata : String) : Except ConnectorError FiservSessionObject :=
  match parse_session metadata with
  | some s => .ok s
  | none =>
      .error (.invalidConnectorConfig "Merchant connector account metadata")

/-- The `source` match of the Fiserv authorize builder: cards and Google Pay
wallets are supported; the Google Pay token is decoded best-effort via
`parse_googlepay_token_safely`; everything else is NotImplemented. -/
def fiserv_get_source
    (parse_raw : String → Option RawGooglePayToken)
    (parse_signed_key : String → Option SignedKey)
    (parse_signed_message : String → Option SignedMessage)
    (payment_method_data : PaymentMethodData) :
    Except ConnectorError FiservSource :=
  match payment_method_data with
  | .card ccard =>
      .ok (.paymentCard
        { card_data := ccard.card_number
          expiration_month := ccard.card_exp_month
          expiration_year := get_expiry_year_4_digit ccard
          security_code := some ccard.card_cvc })
  | .wallet wallet_data =>
      match wallet_data with
      | .googlePay data =>
          let token_string := data.token
          let parsed := parse_googlepay_token_safely parse_raw
            parse_signed_key parse_signed_message token_string
          .ok (.googlePay
            { data := parsed.encrypted_message
              signature := parsed.signature
              version := parsed.protocol_version
              intermediate_signing_key :=
                { signed_key :=
                    encode_signed_key parsed.key_value parsed.key_expiration
                  signatures := parsed.signatures } })
      | _ =>
          .error (.notImplemented
            (get_unimplemented_payment_method_error_message "fiserv"))
  | _ =>
      .error (.notImplemented
        (get_unimplemented_payment_method_error_message "fiserv"))

/-- `TryFrom<&FiservRouterData<&PaymentsAuthorizeRouterData>> for
FiservPaymentsRequest`: resolve auth, derive the capture flag from the
capture method, decode the session metadata, and dispatch on the
payment-method variant (cards and Google Pay are supported; the Google Pay
token is decoded best-effort and never fails). -/
def fiservPaymentsRequestTryFrom
    (parse_session : String → Option FiservSessionObject)
    (parse_raw : String → Option RawGooglePayToken)
    (parse_signed_key : String → Option SignedKey)
    (parse_signed_message : String → Option SignedMessage)
    (item : FiservAuthorizeItem) :
    Except ConnectorError FiservPaymentsRequest := do
  let auth ← FiservAuthType.try_from item.router_data.connector_auth_type
  let amount : FiservAmount :=
    { total := item.amount
      currency := item.router_data.request.currency.toText }
  let transaction_details : FiservTransactionDetails :=
    { capture_flag := some
        (match item.router_data.request.capture_method with
         | some .automatic | some .sequentialAutomatic | none => true
         | _ => false)
      reversal_reason_code := none
      merchant_transaction_id := some item.router_data.connector_request_reference_id }
  let metadata ← item.router_data.get_connector_meta
  let session ← fiserv_parse_session parse_session metadata
  let merchant_details : FiservMerchantDetails :=
    { merchant_id := auth.merchant_account
      terminal_id := some session.terminal_id }
  let transaction_interaction : Option FiservTransactionInteraction :=
    some { origin := "ECOM"
           eci_indicator := "CHANNEL_ENCRYPTED"
           pos_condition_code := "CARD_NOT_PRESENT_ECOM" }
  let source ← fiserv_get_source parse_raw parse_signed_key parse_signed_message
    item.router_data.request.payment_method_data
  .ok { amount := amount
        source := source
        transaction_details := transaction_details
        merchant_details := merchant_details
        transaction_interaction := transaction_interaction }

/-- fiserv::FiservPaymentStatus. -/
inductive FiservPaymentStatus where
  | succeeded
  | failed
  | captured
  | declined
  | voided
  | authorized
  | processing
  deriving Repr, DecidableEq

/-- `From<FiservPaymentStatus> for enums::AttemptStatus`. -/
def FiservPaymentStatus.toAttemptStatus : FiservPaymentStatus → AttemptStatus
  | .captured | .succeeded => .charged
  | .declined | .failed => .failure
  | .processing => .authorizing
  | .voided => .voided
  | .authorized => .authorized

/-- `From<FiservPaymentStatus> for enums::RefundStatus`. -/
def FiservPaymentStatus.toRefundStatus : FiservPaymentStatus → RefundStatus
  | .succeeded | .authorized | .captured => .success
  | .declined | .failed => .failure
  | .voided | .processing => .pending

/-- fiserv::TransactionProcessingDetails. -/
structure TransactionProcessingDetails where
  order_id : String
  transaction_id : String
  deriving Repr, DecidableEq

/-- fiserv::GatewayResponse. -/
structure GatewayResponse where
  gateway_transaction_id : Option String
  transaction_state : FiservPaymentStatus
  transaction_processing_details : TransactionProcessingDetails
  deriving Repr, DecidableEq

/-- fiserv::ApprovedAmount. -/
structure ApprovedAmount where
  total : ℚ
  currency : Currency
  deriving Repr, DecidableEq

/-- fiserv::PaymentReceipt (processor details collapsed to an option). -/
structure PaymentReceipt where
  approved_amount : ApprovedAmount
  processor_response_details : Option String
  deriving Repr, DecidableEq

/-- fiserv::FiservPaymentsResponse. -/
structure FiservPaymentsResponse where
  gateway_response : GatewayResponse
  payment_receipt : PaymentReceipt
  deriving Repr, DecidableEq

/-- fiserv::FiservSyncResponse (transparent list of payment responses). -/
structure FiservSyncResponse where
  sync_responses : List FiservPaymentsResponse
  deriving Repr, DecidableEq

/-- The Fiserv payments response translator
(`TryFrom<ResponseRouterData<F, FiservPaymentsResponse, T, ...>>`): replace
status and response, carry the rest; the response slot is always Ok. -/
def fiservPaymentsTranslate
    (item : ResponseRouterData FiservPaymentsResponse Req PaymentsResponseData) :
    Except ConnectorError (RouterData Req PaymentsResponseData) :=
  let gateway_resp := item.response.gateway_response
  .ok { item.data with
    status := gateway_resp.transaction_state.toAttemptStatus
    response := .ok (.transactionResponse
      (.connectorTransactionId gateway_resp.transaction_processing_details.transaction_id)
      none
      none
      none
      none
      (some gateway_resp.transaction_processing_details.order_id)
      none
      none) }

/-- The Fiserv refund-sync translator
(`TryFrom<RefundsResponseRouterData<RSync, FiservSyncResponse>>`): an empty
sync list is ResponseHandlingFailed; otherwise the first entry is used,
without matching it against the requested refund id. -/
def fiservRefundSyncTranslate
    (item : ResponseRouterData FiservSyncResponse RefundsData RefundsResponseData) :
    Except ConnectorError (RouterData RefundsData RefundsResponseData) := do
  let gateway_resp ←
    match item.response.sync_responses.head? with
    | some r => Except.ok r
    | none => Except.error ConnectorError.responseHandlingFailed
  .ok { item.data with
    response := .ok
      { connector_refund_id :=
          gateway_resp.gateway_response.transaction_processing_details.transaction_id
        refund_status :=
          gateway_resp.gateway_response.transaction_state.toRefundStatus } }

/-! # Globalpay (router/src/connector/globalpay/transformers.rs) -/

/-- globalpay::response::GlobalpayPaymentStatus. -/
inductive GlobalpayPaymentStatus where
  | captured
  | declined
  | funded
  | initiated
  | pending
  | preauthorized
  | rejected
  | reversed
  deriving Repr, DecidableEq

/-- `From<GlobalpayPaymentStatus> for enums::AttemptStatus`. -/
def GlobalpayPaymentStatus.toAttemptStatus : GlobalpayPaymentStatus → AttemptStatus
  | .captured | .funded => .charged
  | .declined | .rejected => .failure
  | .preauthorized => .authorized
  | .reversed => .voided
  | .initiated => .authenticationPending
  | .pending => .pending

/-- `From<GlobalpayPaymentStatus> for enums::RefundStatus`. -/
def GlobalpayPaymentStatus.toRefundStatus : GlobalpayPaymentStatus → RefundStatus
  | .captured | .funded => .success
  | .declined | .rejected => .failure
  | .initiated | .pending => .pending
  | _ => .pending

/-- globalpay::requests::CaptureMode. -/
inductive GlobalpayCaptureMode where
  | auto
  | later
  | multiple
  deriving Repr, DecidableEq

/-- `From<Option<enums::CaptureMethod>> for requests::CaptureMode`: Manual is
Later, ManualMultiple is Multiple, everything else (including absent) is
Auto. -/
def GlobalpayCaptureMode.from (capture_method : Option CaptureMethod) :
    GlobalpayCaptureMode :=
  match capture_method with
  | some .manual => .later
  | some .manualMultiple => .multiple
  | _ => .auto

/-- globalpay card response fragment (only `brand_reference` is read). -/
structure GlobalpayCardResponse where
  brand_reference : Option String
  deriving Repr, DecidableEq

/-- globalpay APM response fragment. -/
structure GlobalpayApmResponse where
  redirect_url : Option String
  deriving Repr, DecidableEq

/-- globalpay payment-method response fragment. -/
structure GlobalpayPaymentMethodResponse where
  card : Option GlobalpayCardResponse
  apm : Option GlobalpayApmResponse
  message : Option String
  deriving Repr, DecidableEq

/-- globalpay::response::GlobalpayPaymentsResponse (the fields read by the
translator). -/
structure GlobalpayPaymentsResponse where
  id : String
  status : GlobalpayPaymentStatus
  amount : Option String
  currency : Option Currency
  reference : Option String
  payment_method : Option GlobalpayPaymentMethodResponse
  deriving Repr, DecidableEq

/-- `consts::NO_ERROR_MESSAGE`. -/
def NO_ERROR_MESSAGE : String := "No error message"

/-- globalpay::get_payment_response: a failure attempt status yields
Err(ErrorResponse) with the payment-method message; any other status yields
the Ok transaction response carrying redirect and mandate reference. -/
def get_payment_response (status : AttemptStatus)
    (response : GlobalpayPaymentsResponse)
    (redirection_data : Option RedirectForm) :
    Except ErrorResponse PaymentsResponseData :=
  let mandate_reference := (response.payment_method.bind (fun pm =>
    (pm.card.bind (fun card => card.brand_reference)))).map (fun id =>
      { connector_mandate_id := some id
        payment_method_id := none
        mandate_metadata := none
        connector_mandate_request_reference_id := none : MandateReference })
  match status with
  | .failure =>
      .error { ErrorResponse.default with
        message := ((response.payment_method.bind (fun pm => pm.message)).getD
          NO_ERROR_MESSAGE) }
  | _ =>
      .ok (.transactionResponse
        (.connectorTransactionId response.id)
        redirection_data
        mandate_reference
        none
        none
        response.reference
        none
        none)

/-- globalpay::requests::Initiator. -/
inductive GlobalpayInitiator where
  | merchant
  | payer
  deriving Repr, DecidableEq

/-- globalpay::requests::Model. -/
inductive GlobalpayModel where
  | recurring
  deriving Repr, DecidableEq

/-- globalpay::requests::Sequence. -/
inductive GlobalpaySequence where
  | first
  | subsequent
  deriving Repr, DecidableEq

/-- globalpay::requests::StoredCredential. -/
structure StoredCredential where
  model : Option GlobalpayModel
  sequence : Option GlobalpaySequence
  deriving Repr, DecidableEq

/-- globalpay::get_mandate_details: for mandate payments, derive the
initiator from `off_session`, mark the stored credential as Subsequent
exactly when a connector mandate id already exists, and return that id. -/
def get_mandate_details (request : PaymentsAuthorizeData) :
    Except ConnectorError
      (Option GlobalpayInitiator × Option StoredCredential × Option String) :=
  .ok (if request.is_mandate_payment then
    let connector_mandate_id := request.mandate_id.bind (fun mandate_ids =>
      match mandate_ids.mandate_reference_id with
      | some (.connectorMandateId connector_mandate_ids) =>
          connector_mandate_ids.get_connector_mandate_id
      | _ => none)
    (some (match request.off_session with
           | some true => GlobalpayInitiator.merchant
           | _ => GlobalpayInitiator.payer),
     some { model := some .recurring
            sequence := some (match connector_mandate_id.isSome with
                              | true => GlobalpaySequence.subsequent
                              | false => GlobalpaySequence.first) },
     connector_mandate_id)
  else
    (none, none, none))

/-! # Amount abstraction

Modelled from the spec (§3 "Amount", §4.1): the converters live in
`common_utils::types` (`StringMinorUnit`, `StringMajorUnit`,
`FloatMajorUnit` and their `AmountConvertor` impls), which is not part of
the source set — only a caller, `get_amount_captured` in the Globalpay
transformers, is.  Per the spec, a canonical minor-unit integer amount is
converted to each view by a pure, currency-aware, reversible
multiplication/division by the currency's decimal exponent; string views
render the exact decimal digits, float views are exact within the
currency's supported magnitude (modelled as exact rationals). -/

/-- Modelled from the spec: the currency's minor-unit decimal exponent
(e.g. 2 for USD, 0 for JPY, 3 for KWD). -/
def Currency.exponent : Currency → Nat
  | .usd => 2
  | .eur => 2
  | .jpy => 0
  | .kwd => 3
  | .aed => 2
  | .gbp => 2

/-- The StringMinorUnit view: the exact decimal numeral of the minor-unit
amount, as its digit sequence (least-significant first). -/
structure StringMinorUnit where
  digits : List Nat
  deriving Repr, DecidableEq

/-- The StringMajorUnit view: integer major units plus the fractional
minor-unit remainder rendered in the currency's `exponent` decimal places. -/
structure StringMajorUnit where
  int_part : Nat
  frac_part : Nat
  deriving Repr, DecidableEq

/-- The FloatMajorUnit view: the major-unit amount as an exact rational. -/
structure FloatMajorUnit where
  value : ℚ
  deriving Repr, DecidableEq

/-- Modelled from the spec: `to_connector_amount` for StringMinorUnit —
render the minor-unit integer as its exact decimal numeral. -/
def to_string_minor_unit (minor_units : Nat) (_currency : Currency) :
    StringMinorUnit :=
  { digits := Nat.digits 10 minor_units }

/-- Modelled from the spec: `from_connector_amount` for StringMinorUnit —
read the decimal numeral back. -/
def from_string_minor_unit (view : StringMinorUnit) (_currency : Currency) : Nat :=
  Nat.ofDigits 10 view.digits

/-- Modelled from the spec: `to_connector_amount` for StringMajorUnit —
divide by 10^exponent, keeping the exact remainder as the fraction. -/
def to_string_major_unit (minor_units : Nat) (currency : Currency) :
    StringMajorUnit :=
  { int_part := minor_units / 10 ^ currency.exponent
    frac_part := minor_units % 10 ^ currency.exponent }

/-- Modelled from the spec: `from_connector_amount` for StringMajorUnit —
multiply the integer part back up and add the fraction. -/
def from_string_major_unit (view : StringMajorUnit) (currency : Currency) : Nat :=
  view.int_part * 10 ^ currency.exponent + view.frac_part

/-- Modelled from the spec: `to_connector_amount` for FloatMajorUnit —
divide by 10^exponent exactly. -/
def to_float_major_unit (minor_units : Nat) (currency : Currency) :
    FloatMajorUnit :=
  { value := (minor_units : ℚ) / (10 : ℚ) ^ currency.exponent }

/-- Modelled from the spec: `from_connector_amount` for FloatMajorUnit —
multiply by 10^exponent and truncate to an integer minor-unit amount. -/
def from_float_major_unit (view : FloatMajorUnit) (currency : Currency) : Int :=
  ⌊view.value * (10 : ℚ) ^ currency.exponent⌋

/-! # Sample inputs used by witnesses and counterexamples. -/

/-- A sample card. -/
def sampleCard : Card :=
  { card_number := "4242424242424242", card_exp_month := "10"
    card_exp_year := "2025", card_cvc := "123" }

/-- A sample authorize request (card payment, no mandate). -/
def sampleAuthRequest : PaymentsAuthorizeData :=
  { payment_method_data := .card sampleCard
    currency := .usd
    amount := 1000
    capture_method := none
    mandate_id := none
    setup_mandate_details := none
    off_session := none
    router_return_url := some "https://merchant.example/return"
    complete_authorize_url := none
    metadata := none
    order_category := none }

/-- A sample authorize RouterData context. -/
def sampleRouterData : RouterData PaymentsAuthorizeData PaymentsResponseData :=
  { status := .pending
    response := .error ErrorResponse.default
    connector_auth_type := .bodyKey "api_key_1" "entity_1"
    request := sampleAuthRequest
    payment_method := .card
    connector_request_reference_id := "ref_1"
    reference_id := none
    connector_meta_data := some "meta_1"
    amount_captured := none
    billing_country := some .de
    billing_email := some "user@example.com"
    billing_phone := some { number := some "5550100", country_code := some "+49" }
    billing_full_name := some "Max Mustermann"
    customer_id := some "cust_1" }

/-- A sample refund request. -/
def sampleRefundRequest : RefundsData :=
  { refund_id := "refund_1"
    connector_transaction_id := "txn_1"
    connector_refund_id := some "conn_ref_1"
    currency := .usd
    refund_amount := 500 }

/-- A sample refund RouterData context. -/
def sampleRefundRouterData : RouterData RefundsData RefundsResponseData :=
  { status := .pending
    response := .error ErrorResponse.default
    connector_auth_type := .signatureKey "api_key_1" "merchant_1" "secret_1"
    request := sampleRefundRequest
    payment_method := .card
    connector_request_reference_id := "ref_1"
    reference_id := none
    connector_meta_data := some "meta_1"
    amount_captured := none
    billing_country := none
    billing_email := none
    billing_phone := none
    billing_full_name := none
    customer_id := none }

/-! # Claim theorems -/

/-- C9: Noon's attempt-status mapper is the identity on the prior status for
the Locked connector status, and for every other Noon status the result is a
fixed attempt status independent of the prior status. -/
theorem noon_locked_preserves_prior_status :
    (∀ s : AttemptStatus, get_payment_status (.locked, s) = s) ∧
    (∀ n : NoonPaymentStatus, ∀ s t : AttemptStatus,
      n ≠ NoonPaymentStatus.locked →
      get_payment_status (n, s) = get_payment_status (n, t)) := by
  constructor
  · intro s
    rfl
  · intro n s t hn
    cases n <;> first | rfl | exact absurd rfl hn

/-- Witness for C9: Locked keeps a Charged prior status; Failed maps to the
same fixed status for two different prior statuses. -/
theorem noon_locked_preserves_prior_status_witness :
    get_payment_status (.locked, .charged) = .charged ∧
    get_payment_status (.failed, .charged) = get_payment_status (.failed, .pending) :=
  ⟨noon_locked_preserves_prior_status.1 .charged,
   noon_locked_preserves_prior_status.2 .failed .charged .pending (by decide)⟩

/-- C4: converting the canonical minor-unit amount to each connector view
(StringMinorUnit, StringMajorUnit, FloatMajorUnit) and back yields the
original minor-unit amount, for every currency. -/
theorem amount_round_trip (minor_units : Nat) (currency : Currency) :
    from_string_minor_unit (to_string_minor_unit minor_units currency) currency
      = minor_units ∧
    from_string_major_unit (to_string_major_unit minor_units currency) currency
      = minor_units ∧
    from_float_major_unit (to_float_major_unit minor_units currency) currency
      = (minor_units : Int) := by
  refine ⟨?_, ?_, ?_⟩
  · simp [from_string_minor_unit, to_string_minor_unit, Nat.ofDigits_digits]
  · simp only [from_string_major_unit, to_string_major_unit]
    rw [mul_comm]
    exact Nat.div_add_mod minor_units (10 ^ currency.exponent)
  · have hpow : ((10 : ℚ) ^ currency.exponent) ≠ 0 := by positivity
    simp only [from_float_major_unit, to_float_major_unit,
      div_mul_cancel₀ _ hpow]
    exact_mod_cast Int.floor_natCast minor_units

/-- C7: `setup_mandate_details` present yields ACI's initial,
cardholder-initiated instruction with registration requested; otherwise a
present `mandate_id` yields the repeated, merchant-initiated instruction;
for Globalpay mandate payments the stored credential is Subsequent exactly
when a connector mandate id exists, First otherwise. -/
theorem mandate_instruction_modes :
    (∀ item : AciAuthorizeItem,
      item.router_data.request.setup_mandate_details.isSome = true →
      aci_get_instruction_details item =
        some { mode := .initial
               transaction_type := .unscheduled
               source := .cardholderInitiatedTransaction
               create_registration := some true }) ∧
    (∀ item : AciAuthorizeItem,
      item.router_data.request.setup_mandate_details = none →
      item.router_data.request.mandate_id.isSome = true →
      aci_get_instruction_details item =
        some { mode := .repeated
               transaction_type := .unscheduled
               source := .merchantInitiatedTransaction
               create_registration := none }) ∧
    (∀ req : PaymentsAuthorizeData,
      req.is_mandate_payment = true →
      ∃ initiator : GlobalpayInitiator,
        get_mandate_details req = .ok
          (some initiator,
           some { model := some .recurring
                  sequence := some
                    (if req.connector_mandate_id.isSome then .subsequent else .first) },
           req.connector_mandate_id)) := by
  refine ⟨?_, ?_, ?_⟩
  · intro item h
    simp [aci_get_instruction_details, h]
  · intro item h hm
    simp [aci_get_instruction_details, h, hm]
  · intro req h
    refine ⟨match req.off_session with
            | some true => GlobalpayInitiator.merchant
            | _ => GlobalpayInitiator.payer, ?_⟩
    have hcm : (req.mandate_id.bind fun mandate_ids =>
        match mandate_ids.mandate_reference_id with
        | some (.connectorMandateId connector_mandate_ids) =>
            connector_mandate_ids.get_connector_mandate_id
        | _ => none) = req.connector_mandate_id := by
      unfold PaymentsAuthorizeData.connector_mandate_id
      cases hmid : req.mandate_id with
      | none => rfl
      | some ids =>
          cases hrid : ids.mandate_reference_id with
          | none => rfl
          | some rid => cases rid <;> rfl
    unfold get_mandate_details
    rw [h]
    simp only [hcm]
    cases hsome : req.connector_mandate_id.isSome <;> simp [hsome]

/-- A mandate id carrying an existing connector mandate id. -/
def sampleConnectorMandateIds : MandateIds :=
  { mandate_reference_id := some
      (.connectorMandateId { connector_mandate_id := some "cmid_1" }) }

/-- Witness for C7: a setup-mandate request gets the initial CIT instruction;
a mandate-id request gets the repeated MIT instruction; a Globalpay mandate
payment with an existing connector mandate id gets a Subsequent sequence. -/
theorem mandate_instruction_modes_witness :
    aci_get_instruction_details
      { amount := "10.00"
        router_data := { sampleRouterData with
          request := { sampleAuthRequest with setup_mandate_details := some () } } } =
      some { mode := .initial
             transaction_type := .unscheduled
             source := .cardholderInitiatedTransaction
             create_registration := some true } ∧
    aci_get_instruction_details
      { amount := "10.00"
        router_data := { sampleRouterData with
          request := { sampleAuthRequest with
            mandate_id := some { mandate_reference_id := none } } } } =
      some { mode := .repeated
             transaction_type := .unscheduled
             source := .merchantInitiatedTransaction
             create_registration := none } ∧
    ∃ initiator : GlobalpayInitiator,
      get_mandate_details
        { sampleAuthRequest with mandate_id := some sampleConnectorMandateIds } = .ok
        (some initiator,
         some { model := some .recurring, sequence := some .subsequent },
         some "cmid_1") := by
  refine ⟨mandate_instruction_modes.1 _ (by decide), mandate_instruction_modes.2.1 _ rfl (by decide), ?_⟩
  obtain ⟨i, hi⟩ := mandate_instruction_modes.2.2
    { sampleAuthRequest with mandate_id := some sampleConnectorMandateIds } (by decide)
  exact ⟨i, by simpa using hi⟩

/-- C1 (amended): for the ACI payments translator a populated redirect
descriptor forces AttemptStatus.authenticationPending regardless of the
result code; the Noon and Nexinets payments translators instead derive the
attempt status purely from the connector status (and transaction type), so a
redirect descriptor never overrides it. -/
theorem redirect_priority_aci_only :
    (∀ (failure_codes pending_codes successful_codes : List String)
       (gcm : PaymentsAuthorizeData → Option CaptureMethod)
       (item : ResponseRouterData AciPaymentsResponse PaymentsAuthorizeData
         PaymentsResponseData)
       (r : AciRedirectionData),
      item.response.redirect = some r →
      Except.map (fun rd => rd.status)
        (aciPaymentsTranslate failure_codes pending_codes successful_codes gcm item)
        = .ok .authenticationPending) ∧
    (∀ (item : ResponseRouterData NoonPaymentsResponse PaymentsAuthorizeData
         PaymentsResponseData)
       (rd' : RouterData PaymentsAuthorizeData PaymentsResponseData),
      noonPaymentsTranslate item = .ok rd' →
      rd'.status = get_payment_status
        (item.response.result.order.status, item.data.status)) ∧
    (∀ (item : ResponseRouterData NexinetsPreAuthOrDebitResponse
         PaymentsAuthorizeData PaymentsResponseData)
       (txn : NexinetsTransaction)
       (rd' : RouterData PaymentsAuthorizeData PaymentsResponseData),
      item.response.transactions.head? = some txn →
      nexinetsPreAuthOrDebitTranslate item = .ok rd' →
      rd'.status = nexinets_get_status txn.status item.response.transaction_type) := by
  refine ⟨?_, ?_, ?_⟩
  · intro fc pc sc gcm item r h
    simp [aciPaymentsTranslate, h, map_aci_attempt_status, Bind.bind, Except.bind,
      Except.map]
  · intro item rd' h
    simp only [noonPaymentsTranslate, Except.ok.injEq] at h
    subst h
    rfl
  · intro item txn rd' h1 h2
    cases htt : item.response.transaction_type with
    | preauth =>
        simp [nexinetsPreAuthOrDebitTranslate, h1, htt, Bind.bind, Except.bind] at h2
        subst h2
        simp [htt]
    | debit =>
        simp [nexinetsPreAuthOrDebitTranslate, h1, htt, Bind.bind, Except.bind] at h2
        subst h2
        simp [htt]
    | capture =>
        simp [nexinetsPreAuthOrDebitTranslate, h1, htt, Bind.bind, Except.bind] at h2
    | cancel =>
        simp [nexinetsPreAuthOrDebitTranslate, h1, htt, Bind.bind, Except.bind] at h2

/-- Counterexample for C1 as stated: a Noon response carrying both the
successful Captured status and a populated checkout (redirect) descriptor
translates to the terminal success status Charged with the redirect form
attached, not to a pending/authentication state. -/
theorem redirect_priority_counterexample :
    noonPaymentsTranslate
      { response := { result :=
          { order := { status := .captured, id := 5, error_code := 0
                       error_message := none, reference := none }
            checkout_data := some { post_url := "https://noon.example/pay" }
            subscription := none } }
        data := sampleRouterData
        http_code := 200 } =
      .ok { sampleRouterData with
        status := .charged
        response := .ok (.transactionResponse
          (.connectorTransactionId "5")
          (some (.form "https://noon.example/pay" .post []))
          none
          none
          none
          (some "5")
          none
          none) } := by
  decide

/-- A Noon response input carrying a Captured status and no redirect. -/
def noonCapturedItem :
    ResponseRouterData NoonPaymentsResponse PaymentsAuthorizeData PaymentsResponseData :=
  { response := { result :=
      { order := { status := .captured, id := 7, error_code := 0
                   error_message := none, reference := none }
        checkout_data := none
        subscription := none } }
    data := sampleRouterData
    http_code := 200 }

/-- The RouterData the Noon translator produces for `noonCapturedItem`. -/
def noonCapturedOutput : RouterData PaymentsAuthorizeData PaymentsResponseData :=
  { sampleRouterData with
    status := .charged
    response := .ok (.transactionResponse
      (.connectorTransactionId "7") none none none none (some "7") none none) }

/-- Witness for C1: an ACI response with a redirect and a success code maps to
AuthenticationPending; the Noon translator's output status for a Captured
response is exactly the status mapper's verdict on (Captured, prior). -/
theorem redirect_priority_aci_only_witness :
    Except.map (fun rd => rd.status)
      (aciPaymentsTranslate [] [] ["000.100.110"] (fun r => r.capture_method)
        { response := { id := "tx1", registration_id := none, ndc := "n"
                        timestamp := "t", build_number := "b"
                        result := { code := "000.100.110", description := "ok"
                                    parameter_errors := none }
                        redirect := some { method := some .post
                                           parameters := [{ name := "PaReq", value := "xyz" }]
                                           url := "https://acs.example" } }
          data := sampleRouterData
          http_code := 200 }) = .ok .authenticationPending ∧
    noonCapturedOutput.status =
      get_payment_status (.captured, sampleRouterData.status) :=
  ⟨redirect_priority_aci_only.1 [] [] ["000.100.110"] _ _ _ rfl,
   redirect_priority_aci_only.2.1 noonCapturedItem noonCapturedOutput (by decide)⟩

/-- C2 (amended): the response slot is always exactly one of Ok/Err.
Globalpay's get_payment_response yields Err(ErrorResponse) precisely when the
mapped attempt status is Failure; the Noon payments translator yields Err
exactly when the order carries an explicit error message (a failure-mapped
status alone keeps Ok); the ACI payments translator always yields Ok, so
ACI failures are visible only in the mapped status. -/
theorem failure_error_response_by_connector :
    (∀ (resp : GlobalpayPaymentsResponse) (redir : Option RedirectForm),
      resp.status.toAttemptStatus = .failure →
      ∃ e, get_payment_response resp.status.toAttemptStatus resp redir = .error e) ∧
    (∀ (resp : GlobalpayPaymentsResponse) (redir : Option RedirectForm),
      resp.status.toAttemptStatus ≠ .failure →
      ∃ d, get_payment_response resp.status.toAttemptStatus resp redir = .ok d) ∧
    (∀ (item : ResponseRouterData NoonPaymentsResponse PaymentsAuthorizeData
         PaymentsResponseData)
       (rd' : RouterData PaymentsAuthorizeData PaymentsResponseData),
      noonPaymentsTranslate item = .ok rd' →
      rd'.response.isOk = item.response.result.order.error_message.isNone) ∧
    (∀ (failure_codes pending_codes successful_codes : List String)
       (gcm : PaymentsAuthorizeData → Option CaptureMethod)
       (item : ResponseRouterData AciPaymentsResponse PaymentsAuthorizeData
         PaymentsResponseData)
       (rd' : RouterData PaymentsAuthorizeData PaymentsResponseData),
      aciPaymentsTranslate failure_codes pending_codes successful_codes gcm item
        = .ok rd' →
      ∃ d, rd'.response = .ok d) := by
  refine ⟨?_, ?_, ?_, ?_⟩
  · intro resp redir h
    rw [h]
    exact ⟨_, rfl⟩
  · intro resp redir h
    cases hs : resp.status <;> simp [hs, GlobalpayPaymentStatus.toAttemptStatus] at h ⊢ <;>
      exact ⟨_, rfl⟩
  · intro item rd' h
    simp only [noonPaymentsTranslate, Except.ok.injEq] at h
    subst h
    cases hmsg : item.response.result.order.error_message <;>
      simp [hmsg, Except.isOk, Except.toBool]
  · intro fc pc sc gcm item rd' h
    simp only [aciPaymentsTranslate, Bind.bind, Except.bind] at h
    split at h
    · simp only [Except.ok.injEq] at h
      subst h
      exact ⟨_, rfl⟩
    · cases hfs : AciPaymentStatus.from_str fc pc sc item.response.result.code with
      | error e => simp [hfs] at h
      | ok parsed =>
          simp only [hfs, Except.ok.injEq] at h
          subst h
          exact ⟨_, rfl⟩

/-- Counterexample for C2 as stated: an ACI response whose result code is a
failure code (status-derived failure) still yields an Ok transaction
response; the failure is visible only in the mapped attempt status. -/
theorem failure_error_response_counterexample :
    (aciPaymentsTranslate ["900.100.100"] [] [] (fun r => r.capture_method)
      { response := { id := "tx9", registration_id := none, ndc := "n"
                      timestamp := "t", build_number := "b"
                      result := { code := "900.100.100", description := "declined"
                                  parameter_errors := none }
                      redirect := none }
        data := sampleRouterData
        http_code := 200 }).map (fun rd => (rd.status, rd.response.isOk))
      = .ok (.failure, true) := by
  decide

/-- Witness for C2: a Globalpay Declined response maps to an ErrorResponse; a
Globalpay Captured response maps to Ok; a Noon response with an error message
maps to Err. -/
theorem failure_error_response_witness :
    (∃ e, get_payment_response GlobalpayPaymentStatus.declined.toAttemptStatus
      { id := "g1", status := .declined, amount := none, currency := none
        reference := none, payment_method := none } none = .error e) ∧
    (∃ d, get_payment_response GlobalpayPaymentStatus.captured.toAttemptStatus
      { id := "g2", status := .captured, amount := none, currency := none
        reference := none, payment_method := none } none = .ok d) := by
  constructor
  · exact failure_error_response_by_connector.1
      { id := "g1", status := .declined, amount := none, currency := none
        reference := none, payment_method := none } none (by decide)
  · exact failure_error_response_by_connector.2.1
      { id := "g2", status := .captured, amount := none, currency := none
        reference := none, payment_method := none } none (by decide)

/-- Inversion for Except.bind landing in Ok: the first stage succeeded. -/
theorem bind_eq_ok {α β : Type} {x : Except ConnectorError α}
    {f : α → Except ConnectorError β} {b : β}
    (h : Except.bind x f = .ok b) : ∃ a, x = .ok a ∧ f a = .ok b := by
  cases x with
  | error e => simp [Except.bind] at h
  | ok a => exact ⟨a, rfl, by simpa [Except.bind] using h⟩

/-- C5 (amended): the Noon refund-sync translator returns
Err(ResponseHandlingFailed) when no transaction's reference matches the
requested refund id; the Fiserv refund-sync translator returns
Err(ResponseHandlingFailed) only when the sync list is empty — a non-empty
list is consumed through its first entry without matching the refund id. -/
theorem refund_sync_no_match :
    (∀ (item : ResponseRouterData NoonRefundSyncResponse RefundsData RefundsResponseData),
      (∀ t ∈ item.response.transactions,
        t.transaction_reference ≠ some item.data.request.refund_id) →
      noonRefundSyncTranslate item = .error .responseHandlingFailed) ∧
    (∀ (item : ResponseRouterData FiservSyncResponse RefundsData RefundsResponseData),
      item.response.sync_responses = [] →
      fiservRefundSyncTranslate item = .error .responseHandlingFailed) := by
  constructor
  · intro item h
    have hfind : item.response.transactions.find?
        (fun transaction =>
          match transaction.transaction_reference with
          | some transaction_instance =>
              transaction_instance == item.data.request.refund_id
          | none => false) = none := by
      rw [List.find?_eq_none]
      intro t ht
      cases hr : t.transaction_reference with
      | none => simp
      | some ref =>
          have := h t ht
          rw [hr] at this
          simp only [ne_eq, Option.some.injEq] at this
          simp [this]
    unfold noonRefundSyncTranslate
    rw [hfind]
  · intro item h
    unfold fiservRefundSyncTranslate
    rw [h]
    rfl

/-- Counterexample for C5 as stated: a Fiserv refund-sync response whose
only entry does not reference the requested refund id ("refund_1") still
translates to a defaulted success using that first entry, not to
Err(ResponseHandlingFailed). -/
theorem refund_sync_no_match_counterexample :
    fiservRefundSyncTranslate
      { response := { sync_responses :=
          [{ gateway_response :=
               { gateway_transaction_id := none
                 transaction_state := .succeeded
                 transaction_processing_details :=
                   { order_id := "order_other", transaction_id := "txn_other" } }
             payment_receipt :=
               { approved_amount := { total := 5, currency := .usd }
                 processor_response_details := none } }] }
        data := sampleRefundRouterData
        http_code := 200 } =
      .ok { sampleRefundRouterData with
        response := .ok { connector_refund_id := "txn_other"
                          refund_status := .success } } := by
  decide

/-- Witness for C5: a Noon sync response whose only transaction references a
different refund id is rejected; an empty Fiserv sync list is rejected. -/
theorem refund_sync_no_match_witness :
    noonRefundSyncTranslate
      { response :=
          { transactions :=
              [{ id := "t1", status := .success, transaction_reference := some "other" }]
            result_code := 0
            class_description := ""
            message := "" }
        data := sampleRefundRouterData
        http_code := 200 } = .error .responseHandlingFailed ∧
    fiservRefundSyncTranslate
      { response := { sync_responses := [] }
        data := sampleRefundRouterData
        http_code := 200 } = .error .responseHandlingFailed :=
  ⟨refund_sync_no_match.1 _ (by decide), refund_sync_no_match.2 _ rfl⟩

/-- C6 (amended): the Fiserv payments translator and the Nexinets payment
translator return the input RouterData with only status and response
replaced; the ACI capture translator replaces status and response and
additionally overwrites reference_id with the connector's referenced_id,
carrying every other field. -/
theorem translator_frame_condition :
    (∀ (item : ResponseRouterData FiservPaymentsResponse PaymentsAuthorizeData
         PaymentsResponseData),
      ∃ s r, fiservPaymentsTranslate item = .ok
        { item.data with status := s, response := r }) ∧
    (∀ (item : ResponseRouterData NexinetsPaymentResponse PaymentsAuthorizeData
         PaymentsResponseData),
      ∃ s r, nexinetsPaymentTranslate item = .ok
        { item.data with status := s, response := r }) ∧
    (∀ (failure_codes pending_codes successful_codes : List String)
       (item : ResponseRouterData AciCaptureResponse PaymentsAuthorizeData
         PaymentsResponseData)
       (rd' : RouterData PaymentsAuthorizeData PaymentsResponseData),
      aciCaptureTranslate failure_codes pending_codes successful_codes item = .ok rd' →
      ∃ s r, rd' = { item.data with
        status := s, response := r,
        reference_id := some item.response.referenced_id }) := by
  refine ⟨?_, ?_, ?_⟩
  · intro item
    exact ⟨_, _, rfl⟩
  · intro item
    exact ⟨_, _, rfl⟩
  · intro fc pc sc item rd' h
    simp only [aciCaptureTranslate, Bind.bind] at h
    obtain ⟨parsed, hps, h⟩ := bind_eq_ok h
    simp only [Except.ok.injEq] at h
    exact ⟨_, _, h.symm⟩

/-- Counterexample for C6 as stated: the ACI capture translator changes a
field other than status and response — the input's reference_id None becomes
Some of the connector's referenced_id. -/
theorem translator_frame_counterexample :
    (aciCaptureTranslate [] [] ["000.000.000"]
      { response := { id := "cap_1", referenced_id := "base_tx"
                      payment_type := .capture, amount := "10.00"
                      currency := "USD", descriptor := "d"
                      result := { code := "000.000.000", description := "ok" }
                      result_details := { extended_description := ""
                                          clearing_institute_name := ""
                                          connector_tx_id1 := ""
                                          connector_tx_id3 := ""
                                          connector_tx_id2 := ""
                                          acquirer_response := "" }
                      build_number := "b", timestamp := "t", ndc := "n"
                      source := "s", payment_method := "card", short_id := "sh" }
        data := sampleRouterData
        http_code := 200 }).map (fun rd => rd.reference_id)
      = .ok (some "base_tx") := by
  decide

/-- The ACI capture input used by the C6 witness. -/
def aciCaptureItem :
    ResponseRouterData AciCaptureResponse PaymentsAuthorizeData PaymentsResponseData :=
  { response := { id := "cap_1", referenced_id := "base_tx"
                  payment_type := .capture, amount := "10.00"
                  currency := "USD", descriptor := "d"
                  result := { code := "000.000.000", description := "ok" }
                  result_details := { extended_description := ""
                                      clearing_institute_name := ""
                                      connector_tx_id1 := ""
                                      connector_tx_id3 := ""
                                      connector_tx_id2 := ""
                                      acquirer_response := "" }
                  build_number := "b", timestamp := "t", ndc := "n"
                  source := "s", payment_method := "card", short_id := "sh" }
    data := sampleRouterData
    http_code := 200 }

/-- The RouterData the ACI capture translator produces for `aciCaptureItem`. -/
def aciCaptureOutput : RouterData PaymentsAuthorizeData PaymentsResponseData :=
  { sampleRouterData with
    status := .authorized
    reference_id := some "base_tx"
    response := .ok (.transactionResponse
      (.connectorTransactionId "cap_1") none none none none (some "base_tx")
      none none) }

/-- Witness for C6: the frame condition evaluated at concrete Fiserv and ACI
capture inputs. -/
theorem translator_frame_condition_witness :
    (∃ s r, fiservPaymentsTranslate
      { response :=
          { gateway_response :=
              { gateway_transaction_id := none
                transaction_state := .authorized
                transaction_processing_details :=
                  { order_id := "o1", transaction_id := "t1" } }
            payment_receipt :=
              { approved_amount := { total := 10, currency := .usd }
                processor_response_details := none } }
        data := sampleRouterData
        http_code := 200 } = .ok
      { sampleRouterData with status := s, response := r }) ∧
    (∃ s r, aciCaptureOutput = { aciCaptureItem.data with
      status := s, response := r,
      reference_id := some aciCaptureItem.response.referenced_id }) :=
  ⟨translator_frame_condition.1 _,
   translator_frame_condition.2.2 [] [] ["000.000.000"] aciCaptureItem
     aciCaptureOutput (by decide)⟩

/-- C8 (amended): Fiserv's capture_flag is true exactly for Automatic,
SequentialAutomatic or an absent capture method; Globalpay maps Manual to
Later, ManualMultiple to Multiple and everything else (absent, Automatic,
SequentialAutomatic, Scheduled) to Auto; ACI's auto-capture flag used for
status mapping is true exactly for Automatic or an absent capture method —
SequentialAutomatic is treated as non-automatic, so a success code yields
Authorized rather than Charged. -/
theorem capture_mode_derivation :
    (∀ (parse_session : String → Option FiservSessionObject)
       (parse_raw : String → Option RawGooglePayToken)
       (parse_signed_key : String → Option SignedKey)
       (parse_signed_message : String → Option SignedMessage)
       (item : FiservAuthorizeItem)
       (req' : FiservPaymentsRequest),
      fiservPaymentsRequestTryFrom parse_session parse_raw parse_signed_key
        parse_signed_message item = .ok req' →
      req'.transaction_details.capture_flag = some
        (match item.router_data.request.capture_method with
         | some .automatic | some .sequentialAutomatic | none => true
         | _ => false)) ∧
    (GlobalpayCaptureMode.from (some .automatic) = .auto ∧
     GlobalpayCaptureMode.from (some .sequentialAutomatic) = .auto ∧
     GlobalpayCaptureMode.from none = .auto ∧
     GlobalpayCaptureMode.from (some .scheduled) = .auto ∧
     GlobalpayCaptureMode.from (some .manual) = .later ∧
     GlobalpayCaptureMode.from (some .manualMultiple) = .multiple) ∧
    (∀ (failure_codes pending_codes successful_codes : List String)
       (gcm : PaymentsAuthorizeData → Option CaptureMethod)
       (item : ResponseRouterData AciPaymentsResponse PaymentsAuthorizeData
         PaymentsResponseData)
       (rd' : RouterData PaymentsAuthorizeData PaymentsResponseData),
      item.response.redirect = none →
      failure_codes.contains item.response.result.code = false →
      pending_codes.contains item.response.result.code = false →
      successful_codes.contains item.response.result.code = true →
      aciPaymentsTranslate failure_codes pending_codes successful_codes gcm item
        = .ok rd' →
      rd'.status =
        (match gcm item.data.request with
         | some .automatic => AttemptStatus.charged
         | none => AttemptStatus.charged
         | _ => AttemptStatus.authorized)) := by
  refine ⟨?_, by decide, ?_⟩
  · intro ps pr pk pmsg item req' h
    simp only [fiservPaymentsRequestTryFrom, Bind.bind] at h
    obtain ⟨auth, ha, h⟩ := bind_eq_ok h
    obtain ⟨meta, hm, h⟩ := bind_eq_ok h
    obtain ⟨session, hs, h⟩ := bind_eq_ok h
    obtain ⟨source, hsrc, h⟩ := bind_eq_ok h
    simp only [Except.ok.injEq] at h
    subst h
    rfl
  · intro fc pc sc gcm item rd' hred hf hp hs h
    simp only [aciPaymentsTranslate, Bind.bind, hred, Option.map_none',
      Option.isSome_none, Bool.false_eq_true, if_false,
      AciPaymentStatus.from_str, hf, hp, hs, if_true, Except.bind,
      Except.ok.injEq] at h
    subst h
    cases hg : gcm item.data.request with
    | none => simp [map_aci_attempt_status, hg]
    | some cm => cases cm <;> simp [map_aci_attempt_status, hg]

/-- Counterexample for C8 as stated: for ACI a requested SequentialAutomatic
capture method does not count as automatic capture — a success result code
maps to Authorized, not Charged. -/
theorem capture_mode_counterexample :
    (aciPaymentsTranslate [] [] ["000.100.110"] (fun r => r.capture_method)
      { response := { id := "tx1", registration_id := none, ndc := "n"
                      timestamp := "t", build_number := "b"
                      result := { code := "000.100.110", description := "ok"
                                  parameter_errors := none }
                      redirect := none }
        data := { sampleRouterData with
          request := { sampleAuthRequest with
            capture_method := some .sequentialAutomatic } }
        http_code := 200 }).map (fun rd => rd.status) = .ok .authorized := by
  decide

/-- The Fiserv authorize context used by the C8 witness. -/
def fiservAuthItem : FiservAuthorizeItem :=
  { amount := 10
    router_data := { sampleRouterData with
      connector_auth_type := .signatureKey "api_key_1" "merchant_1" "secret_1" } }

/-- A metadata decoder that always yields a fixed terminal. -/
def sessionOracle : String → Option FiservSessionObject :=
  fun _ => some { terminal_id := "term1" }

/-- A Google Pay token decoder that always fails (malformed token). -/
def noneRawOracle : String → Option RawGooglePayToken := fun _ => none

/-- A signed-key decoder that always fails. -/
def noneKeyOracle : String → Option SignedKey := fun _ => none

/-- A signed-message decoder that always fails. -/
def noneMsgOracle : String → Option SignedMessage := fun _ => none

/-- The request the Fiserv builder produces for `fiservAuthItem`. -/
def fiservCardRequestOutput : FiservPaymentsRequest :=
  { amount := { total := 10, currency := "USD" }
    source := .paymentCard
      { card_data := "4242424242424242", expiration_month := "10"
        expiration_year := "2025", security_code := some "123" }
    transaction_details :=
      { capture_flag := some true, reversal_reason_code := none
        merchant_transaction_id := some "ref_1" }
    merchant_details := { merchant_id := "merchant_1", terminal_id := some "term1" }
    transaction_interaction :=
      some { origin := "ECOM", eci_indicator := "CHANNEL_ENCRYPTED"
             pos_condition_code := "CARD_NOT_PRESENT_ECOM" } }

/-- The ACI success output used by the C8 witness (no capture method
requested, so auto capture applies and a success code charges). -/
def aciSuccessOutput : RouterData PaymentsAuthorizeData PaymentsResponseData :=
  { sampleRouterData with
    status := .charged
    response := .ok (.transactionResponse
      (.connectorTransactionId "tx1") none none none none (some "tx1") none none) }

/-- Witness for C8: the Fiserv builder on a card request with no capture
method yields capture_flag Some(true); the ACI translator on a success code
with no capture method charges. -/
theorem capture_mode_derivation_witness :
    fiservCardRequestOutput.transaction_details.capture_flag = some
      (match fiservAuthItem.router_data.request.capture_method with
       | some .automatic | some .sequentialAutomatic | none => true
       | _ => false) ∧
    aciSuccessOutput.status =
      (match (fun (r : PaymentsAuthorizeData) => r.capture_method)
          sampleRouterData.request with
       | some .automatic => AttemptStatus.charged
       | none => AttemptStatus.charged
       | _ => AttemptStatus.authorized) :=
  ⟨capture_mode_derivation.1 sessionOracle noneRawOracle noneKeyOracle
     noneMsgOracle fiservAuthItem fiservCardRequestOutput (by decide),
   capture_mode_derivation.2.2 [] [] ["000.100.110"]
     (fun r => r.capture_method)
     { response := { id := "tx1", registration_id := none, ndc := "n"
                     timestamp := "t", build_number := "b"
                     result := { code := "000.100.110", description := "ok"
                                 parameter_errors := none }
                     redirect := none }
       data := sampleRouterData
       http_code := 200 }
     aciSuccessOutput rfl rfl rfl (by decide) (by decide)⟩

/-- C10: parse_googlepay_token_safely is total — an undecodable token yields
the all-empty default token, an undecodable inner signed key leaves the key
fields empty — and the Fiserv authorize builder therefore succeeds on a
Google Pay wallet with a malformed token, sending empty token fields instead
of an error (given auth and session metadata resolve). -/
theorem googlepay_token_parse_total :
    (∀ (parse_raw : String → Option RawGooglePayToken)
       (parse_signed_key : String → Option SignedKey)
       (parse_signed_message : String → Option SignedMessage)
       (s : String),
      parse_raw s = none →
      parse_googlepay_token_safely parse_raw parse_signed_key parse_signed_message s
        = FullyParsedGooglePayToken.default) ∧
    (∀ (parse_raw : String → Option RawGooglePayToken)
       (parse_signed_key : String → Option SignedKey)
       (parse_signed_message : String → Option SignedMessage)
       (s : String) (raw : RawGooglePayToken),
      parse_raw s = some raw →
      parse_signed_key raw.intermediate_signing_key.signed_key = none →
      (parse_googlepay_token_safely parse_raw parse_signed_key
        parse_signed_message s).key_value = "" ∧
      (parse_googlepay_token_safely parse_raw parse_signed_key
        parse_signed_message s).key_expiration = "") ∧
    (∀ (parse_session : String → Option FiservSessionObject)
       (parse_raw : String → Option RawGooglePayToken)
       (parse_signed_key : String → Option SignedKey)
       (parse_signed_message : String → Option SignedMessage)
       (item : FiservAuthorizeItem)
       (gp : GooglePayWalletData)
       (auth : FiservAuthType)
       (metadata : String)
       (session : FiservSessionObject),
      item.router_data.request.payment_method_data = .wallet (.googlePay gp) →
      parse_raw gp.token = none →
      FiservAuthType.try_from item.router_data.connector_auth_type = .ok auth →
      item.router_data.get_connector_meta = .ok metadata →
      parse_session metadata = some session →
      ∃ req', fiservPaymentsRequestTryFrom parse_session parse_raw
          parse_signed_key parse_signed_message item = .ok req' ∧
        req'.source = .googlePay
          { data := "", signature := "", version := ""
            intermediate_signing_key :=
              { signed_key := encode_signed_key "" "", signatures := [] } }) := by
  refine ⟨?_, ?_, ?_⟩
  · intro pr pk pm s h
    unfold parse_googlepay_token_safely
    rw [h]
  · intro pr pk pm s raw hraw hkey
    simp only [parse_googlepay_token_safely, hraw, hkey]
    cases hmsg : pm raw.signed_message <;>
      simp [hmsg, FullyParsedGooglePayToken.default]
  · intro ps pr pk pm item gp auth metadata session hpm hraw hauth hmeta hsess
    have hparse : parse_googlepay_token_safely pr pk pm gp.token
        = FullyParsedGooglePayToken.default := by
      simp only [parse_googlepay_token_safely, hraw]
    have hsource : fiserv_get_source pr pk pm
        item.router_data.request.payment_method_data = .ok (.googlePay
          { data := "", signature := "", version := ""
            intermediate_signing_key :=
              { signed_key := encode_signed_key "" "", signatures := [] } }) := by
      rw [hpm]
      simp only [fiserv_get_source, hparse]
      rfl
    refine ⟨{ amount := { total := item.amount
                          currency := item.router_data.request.currency.toText }
              source := .googlePay
                { data := "", signature := "", version := ""
                  intermediate_signing_key :=
                    { signed_key := encode_signed_key "" "", signatures := [] } }
              transaction_details :=
                { capture_flag := some
                    (match item.router_data.request.capture_method with
                     | some .automatic | some .sequentialAutomatic | none => true
                     | _ => false)
                  reversal_reason_code := none
                  merchant_transaction_id :=
                    some item.router_data.connector_request_reference_id }
              merchant_details := { merchant_id := auth.merchant_account
                                    terminal_id := some session.terminal_id }
              transaction_interaction :=
                some { origin := "ECOM"
                       eci_indicator := "CHANNEL_ENCRYPTED"
                       pos_condition_code := "CARD_NOT_PRESENT_ECOM" } }, ?_, rfl⟩
    simp only [fiservPaymentsRequestTryFrom, Bind.bind, hauth, Except.bind,
      hmeta, fiserv_parse_session, hsess, hsource]

/-- A Fiserv authorize context carrying a malformed Google Pay token. -/
def fiservGpayItem : FiservAuthorizeItem :=
  { amount := 10
    router_data := { sampleRouterData with
      connector_auth_type := .signatureKey "api_key_1" "merchant_1" "secret_1"
      request := { sampleAuthRequest with
        payment_method_data := .wallet (.googlePay { token := "not a json token" }) } } }

/-- Witness for C10: the all-failing decoders on a malformed token yield the
default token, and the builder still succeeds with empty token fields. -/
theorem googlepay_token_parse_total_witness :
    parse_googlepay_token_safely noneRawOracle noneKeyOracle noneMsgOracle
      "not a json token" = FullyParsedGooglePayToken.default ∧
    ∃ req', fiservPaymentsRequestTryFrom sessionOracle noneRawOracle
        noneKeyOracle noneMsgOracle fiservGpayItem = .ok req' ∧
      req'.source = .googlePay
        { data := "", signature := "", version := ""
          intermediate_signing_key :=
            { signed_key := encode_signed_key "" "", signatures := [] } } :=
  ⟨googlepay_token_parse_total.1 noneRawOracle noneKeyOracle noneMsgOracle
     "not a json token" rfl,
   googlepay_token_parse_total.2.2 sessionOracle noneRawOracle noneKeyOracle
     noneMsgOracle fiservGpayItem { token := "not a json token" }
     { api_key := "api_key_1", merchant_account := "merchant_1"
       api_secret := "secret_1" }
     "meta_1" { terminal_id := "term1" } rfl rfl (by decide) (by decide) rfl⟩

/-! ## Builder error discipline (C3 machinery). -/

/-- The typed errors an authorize builder may legitimately raise: unsupported
variants (NotImplemented), missing auxiliary data (MissingRequiredField),
credential-shape mismatch (FailedToObtainAuthType), unsupported banks
(FlowNotSupported), undecodable wallet tokens (InvalidWalletToken) and
undecodable connector metadata (InvalidConnectorConfig).  Response-side and
wire-level errors (ResponseHandlingFailed, UnexpectedResponseError, ...) are
not builder outcomes. -/
def allowed_builder_error : ConnectorError → Bool
  | .notImplemented _ => true
  | .missingRequiredField _ => true
  | .failedToObtainAuthType => true
  | .flowNotSupported _ _ => true
  | .invalidWalletToken _ => true
  | .invalidConnectorConfig _ => true
  | _ => false

/-- A builder outcome is Ok, or a typed error from the allowed set. -/
def ok_or_allowed {α : Type} : Except ConnectorError α → Bool
  | .ok _ => true
  | .error e => allowed_builder_error e

/-- Bind preserves the builder error discipline. -/
theorem ok_or_allowed_bind {α β : Type} {x : Except ConnectorError α}
    {f : α → Except ConnectorError β}
    (hx : ok_or_allowed x = true) (hf : ∀ a, ok_or_allowed (f a) = true) :
    ok_or_allowed (Except.bind x f) = true := by
  cases x with
  | error e => exact hx
  | ok a => exact hf a

/-- The billing-country accessor obeys the builder error discipline. -/
theorem billing_country_allowed (rd : RouterData Req Resp) :
    ok_or_allowed rd.get_billing_country = true := by
  unfold RouterData.get_billing_country
  cases rd.billing_country <;> rfl

/-- The billing-email accessor obeys the builder error discipline. -/
theorem billing_email_allowed (rd : RouterData Req Resp) :
    ok_or_allowed rd.get_billing_email = true := by
  unfold RouterData.get_billing_email
  cases rd.billing_email <;> rfl

/-- The billing-phone accessor obeys the builder error discipline. -/
theorem billing_phone_allowed (rd : RouterData Req Resp) :
    ok_or_allowed rd.get_billing_phone = true := by
  unfold RouterData.get_billing_phone
  cases rd.billing_phone <;> rfl

/-- The customer-id accessor obeys the builder error discipline. -/
theorem customer_id_allowed (rd : RouterData Req Resp) :
    ok_or_allowed rd.get_customer_id = true := by
  unfold RouterData.get_customer_id
  cases rd.customer_id <;> rfl

/-- The connector-metadata accessor obeys the builder error discipline. -/
theorem connector_meta_allowed (rd : RouterData Req Resp) :
    ok_or_allowed rd.get_connector_meta = true := by
  unfold RouterData.get_connector_meta
  cases rd.connector_meta_data <;> rfl

/-- The phone formatter obeys the builder error discipline. -/
theorem phone_hash_allowed (p : PhoneDetails) :
    ok_or_allowed p.get_number_with_hash_country_code = true := by
  unfold PhoneDetails.get_number_with_hash_country_code
  cases p.country_code <;> cases p.number <;> rfl

/-- The ACI auth resolver obeys the builder error discipline. -/
theorem aci_auth_allowed (auth : ConnectorAuthType) :
    ok_or_allowed (AciAuthType.try_from auth) = true := by
  unfold AciAuthType.try_from
  cases auth <;> rfl

/-- The shared ACI transaction-details step obeys the discipline. -/
theorem aci_txd_allowed (item : AciAuthorizeItem) :
    ok_or_allowed (aci_get_transaction_details item) = true := by
  simp only [aci_get_transaction_details, Bind.bind]
  exact ok_or_allowed_bind (aci_auth_allowed _) (fun a => rfl)

/-- The ACI wallet dispatch obeys the discipline. -/
theorem aci_wallet_allowed (w : WalletData)
    (rd : RouterData PaymentsAuthorizeData PaymentsResponseData) :
    ok_or_allowed (aciPaymentDetailsFromWallet w rd) = true := by
  cases w <;> simp only [aciPaymentDetailsFromWallet, Bind.bind] <;> try rfl
  exact ok_or_allowed_bind (billing_phone_allowed rd)
    (fun p => ok_or_allowed_bind (phone_hash_allowed p) (fun n => rfl))

/-- The ACI bank-redirect dispatch obeys the discipline. -/
theorem aci_bank_redirect_allowed (item : AciAuthorizeItem)
    (b : BankRedirectData) :
    ok_or_allowed (aciPaymentDetailsFromBankRedirect item b) = true := by
  cases b <;> simp only [aciPaymentDetailsFromBankRedirect, Bind.bind] <;> try rfl
  case eps =>
    exact ok_or_allowed_bind (billing_country_allowed _) (fun c => rfl)
  case eft =>
    exact ok_or_allowed_bind (billing_country_allowed _) (fun c => rfl)
  case giropay bic iban =>
    exact ok_or_allowed_bind (billing_country_allowed _) (fun c => rfl)
  case ideal bank_name =>
    refine ok_or_allowed_bind (billing_country_allowed _) (fun c => ?_)
    cases bank_name <;> rfl
  case sofort =>
    exact ok_or_allowed_bind (billing_country_allowed _) (fun c => rfl)
  case przelewy24 =>
    exact ok_or_allowed_bind (billing_email_allowed _) (fun e => rfl)
  case interac =>
    exact ok_or_allowed_bind (billing_country_allowed _)
      (fun c => ok_or_allowed_bind (billing_email_allowed _) (fun e => rfl))
  case trustly =>
    exact ok_or_allowed_bind (billing_country_allowed _)
      (fun c => ok_or_allowed_bind (customer_id_allowed _) (fun cu => rfl))

/-- The payment-method variants the ACI authorize builder has no arm for. -/
def aci_unsupported : PaymentMethodData → Bool
  | .card _ | .wallet _ | .payLater _ | .bankRedirect _ | .mandatePayment => false
  | _ => true

/-- The payment-method variants the Fiserv source dispatch has no arm for. -/
def fiserv_unsupported : PaymentMethodData → Bool
  | .card _ => false
  | .wallet (.googlePay _) => false
  | _ => true

/-- The payment-method variants the Nexinets dispatch has no arm for. -/
def nexinets_unsupported : PaymentMethodData → Bool
  | .card _ => false
  | .wallet .paypalRedirect => false
  | .wallet (.applePay _) => false
  | .bankRedirect .eps => false
  | .bankRedirect (.giropay _ _) => false
  | .bankRedirect (.ideal _) => false
  | .bankRedirect .sofort => false
  | _ => true

/-- The Fiserv auth resolver obeys the builder error discipline. -/
theorem fiserv_auth_allowed (auth : ConnectorAuthType) :
    ok_or_allowed (FiservAuthType.try_from auth) = true := by
  unfold FiservAuthType.try_from
  cases auth <;> rfl

/-- The Fiserv session decode obeys the builder error discipline. -/
theorem fiserv_session_allowed (ps : String → Option FiservSessionObject)
    (metadata : String) :
    ok_or_allowed (fiserv_parse_session ps metadata) = true := by
  unfold fiserv_parse_session
  cases ps metadata <;> rfl

/-- The Fiserv source dispatch obeys the builder error discipline. -/
theorem fiserv_source_allowed (pr : String → Option RawGooglePayToken)
    (pk : String → Option SignedKey) (pm : String → Option SignedMessage)
    (pmd : PaymentMethodData) :
    ok_or_allowed (fiserv_get_source pr pk pm pmd) = true := by
  cases pmd <;> simp only [fiserv_get_source] <;> try rfl
  case wallet w => cases w <;> rfl

/-- The Nexinets card step obeys the builder error discipline. -/
theorem nexinets_card_allowed (request : PaymentsAuthorizeData) (card : Card) :
    ok_or_allowed (nexinets_get_card_data request card) = true := by
  simp only [nexinets_get_card_data, nexinets_get_card_details, Bind.bind]
  cases request.is_mandate_payment with
  | false => rfl
  | true =>
      cases request.off_session with
      | none => rfl
      | some b => cases b <;> rfl

/-- The Nexinets wallet dispatch obeys the builder error discipline. -/
theorem nexinets_wallet_allowed (pwt : String → Option String) (w : WalletData) :
    ok_or_allowed (nexinets_get_wallet_details pwt w) = true := by
  cases w <;> simp only [nexinets_get_wallet_details, Bind.bind] <;> try rfl
  case applePay data =>
    refine ok_or_allowed_bind ?_ (fun d => rfl)
    simp only [nexinets_get_applepay_details, get_wallet_token_as_json, Bind.bind]
    refine ok_or_allowed_bind ?_ (fun v => rfl)
    cases pwt data.payment_data <;> rfl

/-- The Nexinets payment-details dispatch obeys the builder error discipline. -/
theorem nexinets_details_allowed (pwt : String → Option String)
    (item : RouterData PaymentsAuthorizeData PaymentsResponseData) :
    ok_or_allowed (get_payment_details_and_product pwt item) = true := by
  cases hpm : item.request.payment_method_data <;>
    simp only [get_payment_details_and_product, hpm, Bind.bind] <;> try rfl
  case card c =>
    exact ok_or_allowed_bind (nexinets_card_allowed _ _) (fun d => rfl)
  case wallet w => exact nexinets_wallet_allowed pwt w
  case bankRedirect b =>
    cases b <;> try rfl
    case ideal bank_name =>
      cases bank_name with
      | none => rfl
      | some bank =>
          simp only [Bind.bind]
          refine ok_or_allowed_bind ?_ (fun b => ?_)
          · unfold NexinetsBIC.try_from
            cases bank <;> rfl
          · rfl

/-- C3 (amended): every authorize builder is total over the payment-method
union — for every variant and every context it returns Ok(payload) or a
typed builder error (NotImplemented, MissingRequiredField,
FailedToObtainAuthType, FlowNotSupported, InvalidWalletToken,
InvalidConnectorConfig), never any other error and never a panic — and every
variant outside the connector's supported set yields exactly
Err(NotImplemented(_)).  Supported variants may fail with the other typed
errors when auxiliary data is missing or unsupported (e.g. Nexinets iDEAL
with a bank outside its BIC table is FlowNotSupported). -/
theorem payment_method_coverage :
    (∀ item : AciAuthorizeItem,
      ok_or_allowed (aciPaymentsRequestTryFrom item) = true) ∧
    (∀ item : AciAuthorizeItem,
      aci_unsupported item.router_data.request.payment_method_data = true →
      aciPaymentsRequestTryFrom item = .error
        (.notImplemented (get_unimplemented_payment_method_error_message "Aci"))) ∧
    (∀ (parse_session : String → Option FiservSessionObject)
       (parse_raw : String → Option RawGooglePayToken)
       (parse_signed_key : String → Option SignedKey)
       (parse_signed_message : String → Option SignedMessage)
       (item : FiservAuthorizeItem),
      ok_or_allowed (fiservPaymentsRequestTryFrom parse_session parse_raw
        parse_signed_key parse_signed_message item) = true) ∧
    (∀ (parse_raw : String → Option RawGooglePayToken)
       (parse_signed_key : String → Option SignedKey)
       (parse_signed_message : String → Option SignedMessage)
       (pmd : PaymentMethodData),
      fiserv_unsupported pmd = true →
      fiserv_get_source parse_raw parse_signed_key parse_signed_message pmd
        = .error
        (.notImplemented (get_unimplemented_payment_method_error_message "fiserv"))) ∧
    (∀ (parse_wallet_token : String → Option String)
       (item : RouterData PaymentsAuthorizeData PaymentsResponseData),
      ok_or_allowed (nexinetsPaymentsRequestTryFrom parse_wallet_token item)
        = true) ∧
    (∀ (parse_wallet_token : String → Option String)
       (item : RouterData PaymentsAuthorizeData PaymentsResponseData),
      nexinets_unsupported item.request.payment_method_data = true →
      nexinetsPaymentsRequestTryFrom parse_wallet_token item = .error
        (.notImplemented
          (get_unimplemented_payment_method_error_message "nexinets"))) := by
  refine ⟨?_, ?_, ?_, ?_, ?_, ?_⟩
  · intro item
    cases hpm : item.router_data.request.payment_method_data <;>
      simp only [aciPaymentsRequestTryFrom, hpm, Bind.bind] <;> try rfl
    case card c =>
      exact ok_or_allowed_bind (aci_txd_allowed item)
        (fun t => ok_or_allowed_bind rfl (fun p => rfl))
    case wallet w =>
      exact ok_or_allowed_bind (aci_txd_allowed item)
        (fun t => ok_or_allowed_bind (aci_wallet_allowed w _) (fun p => rfl))
    case payLater p =>
      exact ok_or_allowed_bind (aci_txd_allowed item) (fun t => rfl)
    case bankRedirect b =>
      exact ok_or_allowed_bind (aci_txd_allowed item)
        (fun t => ok_or_allowed_bind (aci_bank_redirect_allowed item b)
          (fun p => rfl))
    case mandatePayment =>
      cases item.router_data.request.mandate_id with
      | none => rfl
      | some m =>
          exact ok_or_allowed_bind rfl
            (fun _ => ok_or_allowed_bind (aci_txd_allowed item) (fun t => rfl))
  · intro item h
    cases hpm : item.router_data.request.payment_method_data <;>
      rw [hpm] at h <;>
      simp [aci_unsupported] at h <;>
      simp [aciPaymentsRequestTryFrom, hpm]
  · intro ps pr pk pm item
    simp only [fiservPaymentsRequestTryFrom, Bind.bind]
    exact ok_or_allowed_bind (fiserv_auth_allowed _) (fun a =>
      ok_or_allowed_bind (connector_meta_allowed _) (fun m =>
        ok_or_allowed_bind (fiserv_session_allowed ps m) (fun s =>
          ok_or_allowed_bind (fiserv_source_allowed pr pk pm _) (fun src => rfl))))
  · intro pr pk pm pmd h
    cases pmd <;> try rfl
    case card c => simp [fiserv_unsupported] at h
    case wallet w =>
      cases w <;> simp [fiserv_unsupported] at h <;> rfl
  · intro pwt item
    simp only [nexinetsPaymentsRequestTryFrom, Bind.bind]
    refine ok_or_allowed_bind (nexinets_details_allowed pwt item) (fun d => ?_)
    obtain ⟨payment, product⟩ := d
    rfl
  · intro pwt item h
    cases hpm : item.request.payment_method_data <;>
      try (rw [hpm] at h;
           simp only [nexinetsPaymentsRequestTryFrom, Bind.bind, Except.bind,
             get_payment_details_and_product, hpm])
    case card c => simp [nexinets_unsupported] at h
    case wallet w =>
      cases w <;> simp [nexinets_unsupported] at h <;>
        simp [nexinetsPaymentsRequestTryFrom, Bind.bind, Except.bind,
          get_payment_details_and_product, nexinets_get_wallet_details, hpm]
    case bankRedirect b =>
      cases b <;> simp [nexinets_unsupported] at h <;>
        simp [nexinetsPaymentsRequestTryFrom, Bind.bind, Except.bind,
          get_payment_details_and_product, hpm]

/-- Counterexample for C3 as stated: the Nexinets dispatch on the iDEAL
bank-redirect sub-variant with a bank outside its BIC table returns
Err(FlowNotSupported), which is neither Ok(payload) nor
Err(NotImplemented(_)). -/
theorem payment_method_coverage_counterexample :
    get_payment_details_and_product (fun s => some s)
      { sampleRouterData with request := { sampleAuthRequest with
          payment_method_data := .bankRedirect (.ideal (some .hsbc)) } } =
      .error (.flowNotSupported "Hsbc" "Nexinets") := by
  decide

/-- Witness for C3: the ACI builder on the sample card context obeys the
error discipline; the Fiserv dispatch on UPI and the Nexinets builder on
Crypto return NotImplemented. -/
theorem payment_method_coverage_witness :
    ok_or_allowed (aciPaymentsRequestTryFrom
      { amount := "10.00", router_data := sampleRouterData }) = true ∧
    fiserv_get_source noneRawOracle noneKeyOracle noneMsgOracle .upi =
      .error (.notImplemented
        (get_unimplemented_payment_method_error_message "fiserv")) ∧
    nexinetsPaymentsRequestTryFrom (fun s => some s)
      { sampleRouterData with request := { sampleAuthRequest with
          payment_method_data := .crypto } } =
      .error (.notImplemented
        (get_unimplemented_payment_method_error_message "nexinets")) :=
  ⟨payment_method_coverage.1 _,
   payment_method_coverage.2.2.2.1 noneRawOracle noneKeyOracle noneMsgOracle
     .upi (by decide),
   payment_method_coverage.2.2.2.2.2 (fun s => some s) _ (by decide)⟩
